import Mathlib

/-!
Verification development for the iOS build command of the `exp` CLI
(`src/commands/build/IOSBuilder.js`).

The builder is pure orchestration around an external Platform Service:
it fetches an existing credential bundle, then for each credential kind
(Apple ID, distribution certificate, push certificate) either runs a
collection flow (prompting the operator and/or delegating generation) or
re-validates the stored material, registers the app id between the
certificate and push-certificate steps, and finally publishes and starts
a build.

We embed the workflow shallowly: every external call (Platform Service
request, file system access, interactive prompt answer) is resolved by an
`Env` oracle, and each function returns the list of observable events it
performed together with an `Outcome`.  `Outcome.blocked` models an
interactive prompt whose validator never accepts the scripted answers:
the process waits forever, so nothing later runs.

JavaScript exceptions are modelled by `JSError`; the `isXDLError` field
mirrors the tag the workflow inspects to classify service errors.
-/

/-- A JavaScript error value as the workflow observes it: the
`isXDLError` classification tag, an error code and a message. -/
structure JSError where
  isXDLError : Bool
  code : String
  message : String
deriving DecidableEq

/-- An error constructed with `new XDLError(code, message)`: tagged as a
classified service error. -/
def XDLErr (code msg : String) : JSError :=
  { isXDLError := true, code := code, message := msg }

/-- Modelled from the spec: `CommandError` (defined in
`src/CommandError.js`, which is not part of the provided sources) is the
CLI-level error class used to surface operator-actionable messages.  Per
the spec, a classified service failure re-raised through it is surfaced
with its own specific message and is not re-wrapped by outer handlers,
so it does not carry the `isXDLError` service tag. -/
def CommandErr (code msg : String) : JSError :=
  { isXDLError := false, code := code, message := msg }

/-- JavaScript truthiness of an optional string field (`undefined` and
the empty string are falsy). -/
def jsTruthy : Option String → Bool
  | none => false
  | some s => !(s == "")

/-- The iOS credential bundle (`IOSCredentials`): all fields optional. -/
structure IOSCredentials where
  appleId : Option String := none
  password : Option String := none
  teamId : Option String := none
  certP12 : Option String := none
  certPassword : Option String := none
  pushP12 : Option String := none
  pushPassword : Option String := none
deriving DecidableEq

/-- The three credential kinds handled by the workflow. -/
inductive CredKind where
  | appleId : CredKind
  | cert : CredKind
  | push : CredKind
deriving DecidableEq

/-- The bundle field whose truthiness decides presence of a kind. -/
def kindField : CredKind → IOSCredentials → Option String
  | CredKind.appleId, c => c.appleId
  | CredKind.cert, c => c.certP12
  | CredKind.push, c => c.pushP12

/-- Observable events of a workflow run, in order of occurrence. -/
inductive Event where
  | getPublishInfoEv : Event
  | fetchExistingEv : Event
  | promptShown : String → Event
  | validateCall : CredKind → Option IOSCredentials → Event
  | updateCall : IOSCredentials → Event
  | fetchAppleCertsCall : Event
  | fetchPushCertsCall : Event
  | ensureAppIdCall : Event
  | readFileCall : String → Event
  | collectFlow : CredKind → Event
  | revalidateFlow : CredKind → Event
  | publishCall : Event
  | buildCall : List String → Event
  | checkPackagerCall : Event
  | checkStatusCall : Event
deriving DecidableEq

/-- Result of a (possibly partial) run: normal return, a thrown error,
or blocked forever at an interactive prompt. -/
inductive Outcome (α : Type) where
  | ok : α → Outcome α
  | err : JSError → Outcome α
  | blocked : Outcome α
deriving DecidableEq

/-- Oracle environment: project options, the answers the operator will
give at each prompt, and the responses of every external collaborator
call (Platform Service, packager, file system), following the
collaborator contracts of the spec. -/
structure Env where
  clearCredentials : Bool
  username : String
  experienceName : String
  bundleIdentifier : Option String
  existingCredentials : Option IOSCredentials
  validate : CredKind → Option IOSCredentials → Except JSError Bool
  update : IOSCredentials → Except JSError Unit
  fetchAppleCertificates : Except JSError Unit
  fetchPushCertificates : Except JSError Bool
  ensureAppId : Except JSError Unit
  checkPackagerStatus : Except JSError Unit
  checkStatus : Except JSError Unit
  publishResult : Except JSError (List String)
  buildResult : List String → Except JSError Unit
  appleIdAnswer : String
  passwordAnswer : String
  teamIdAnswer : String
  manageCertificates : Bool
  certPathInputs : List String
  certPasswordAnswer : String
  managePushCertificates : Bool
  pushPathInputs : List String
  pushPasswordAnswer : String
  untildifyF : String → String
  resolveF : String → String
  isAbsoluteF : String → Bool
  readFileF : String → Except JSError String
  base64F : String → String
  isFileF : String → Bool

/-- Names of the interactive questions, used to record prompt events. -/
def qAppleId : String := "appleId"

def qPassword : String := "password"

def qTeamId : String := "teamId"

def qManageCerts : String := "manageCertificates"

def qPathToP12 : String := "pathToP12"

def qCertPassword : String := "certPassword"

def qManagePush : String := "managePushCertificates"

def qPushPassword : String := "pushPassword"

/-- Error code `ErrorCode.CREDENTIAL_ERROR`. -/
def credentialErrorCode : String := "CREDENTIAL_ERROR"

/-- Error code `ErrorCode.INVALID_OPTIONS`. -/
def invalidOptionsCode : String := "INVALID_OPTIONS"

/-- Message of the missing-bundle-identifier configuration error. -/
def bundleIdMissingMsg : String :=
  "Your project must have a bundleIdentifier set in exp.json. See https://docs.getexponent.com/versions/latest/guides/building-standalone-apps.html"

/-- Message shown when stored Apple ID credentials fail re-validation. -/
def storedAppleInvalidMsg : String :=
  "Stored credentials are invalid! Rerun this command with \"-c\" in order to reinput your credentials."

/-- Message shown when the stored certificate fails re-validation. -/
def storedCertInvalidMsg : String :=
  "Stored certificate is invalid! Rerun this command with \"-c\" in order to reinput your credentials and reupload/regenerate certificates."

/-- Message shown when the stored push certificate fails re-validation. -/
def storedPushInvalidMsg : String :=
  "Stored push certificate is invalid! Rerun this command with \"-c\" in order to reinput your credentials and reupload/regenerate certificates."

/-- The generic fetch/upload failure message. -/
def genericCertFailMsg : String := "Failed fetching/uploading certificates."

/-- Specific message for a classified failure while validating an
uploaded distribution certificate. -/
def certPortalMsg : String :=
  "Oops! This certificate does not seem to be present in your developer portal. Please upload a different certificate that exists in your developer portal."

/-- Specific message for a classified failure while validating an
uploaded push certificate. -/
def pushPortalMsg : String :=
  "Oops! This push certificate does not seem to be present in your developer portal. Please upload a different certificate that exists in your developer portal."

/-- Message of the fatal app-id registration error, parameterised by the
bundle identifier. -/
def appIdErrMsg (b : String) : String :=
  "It seems like we cannot create an app on the Apple developer center with this app id: " ++ b ++ ". Please change your bundle identifier to something else."

/-- The fatal app-id registration error. -/
def appIdErr (b : String) : JSError :=
  XDLErr credentialErrorCode (appIdErrMsg b)

/-- The stored-credentials-invalid error raised when re-validation of a
kind fails. -/
def storedInvalidErr : CredKind → JSError
  | CredKind.appleId => XDLErr credentialErrorCode storedAppleInvalidMsg
  | CredKind.cert => XDLErr credentialErrorCode storedCertInvalidMsg
  | CredKind.push => XDLErr credentialErrorCode storedPushInvalidMsg

/-- The credentials object built from the Apple ID prompt answers. -/
def appleCredsOf (env : Env) : IOSCredentials :=
  { appleId := some env.appleIdAnswer
    password := some env.passwordAnswer
    teamId := some env.teamIdAnswer }

/-- The credentials object built from an uploaded certificate file. -/
def certCredsOf (env : Env) (data : String) : IOSCredentials :=
  { certP12 := some (env.base64F data)
    certPassword := some env.certPasswordAnswer }

/-- The credentials object built from an uploaded push certificate. -/
def pushCredsOf (env : Env) (data : String) : IOSCredentials :=
  { pushP12 := some (env.base64F data)
    pushPassword := some env.pushPasswordAnswer }

/-- The `filter` of the `pathToP12` question: tilde-expand the input and
resolve it to an absolute path when it is not absolute already. -/
def filterP12Path (env : Env) (p : String) : String :=
  let q := env.untildifyF p
  if env.isAbsoluteF q then q else env.resolveF q

/-- The `pathToP12` question: each scripted input is transformed by the
question filter and then checked by the `fs.stat`/`isFile` validator;
on failure the question is asked again with the next scripted input.
If no scripted input passes, the prompt waits forever (`blocked`). -/
def promptPathLoop (env : Env) : List String → List Event × Outcome String
  | [] => ([Event.promptShown qPathToP12], Outcome.blocked)
  | raw :: rest =>
    let p := filterP12Path env raw
    if env.isFileF p then
      ([Event.promptShown qPathToP12], Outcome.ok p)
    else
      let r := promptPathLoop env rest
      (Event.promptShown qPathToP12 :: r.1, r.2)

/-- `askForAppleId`: prompt for Apple ID, password and team id (each
required non-empty), validate the new credentials against the service
(wrapping a classified failure into a `CommandError` with the service
message), then persist them with an update call. -/
def askForAppleId (env : Env) : List Event × Outcome Unit :=
  if env.appleIdAnswer == "" then
    ([Event.collectFlow CredKind.appleId, Event.promptShown qAppleId],
      Outcome.blocked)
  else if env.passwordAnswer == "" then
    ([Event.collectFlow CredKind.appleId, Event.promptShown qAppleId,
      Event.promptShown qPassword], Outcome.blocked)
  else if env.teamIdAnswer == "" then
    ([Event.collectFlow CredKind.appleId, Event.promptShown qAppleId,
      Event.promptShown qPassword, Event.promptShown qTeamId], Outcome.blocked)
  else
    let creds := appleCredsOf env
    let pre := [Event.collectFlow CredKind.appleId, Event.promptShown qAppleId,
      Event.promptShown qPassword, Event.promptShown qTeamId,
      Event.validateCall CredKind.appleId (some creds)]
    match env.validate CredKind.appleId (some creds) with
    | Except.error e =>
      (pre, Outcome.err (if e.isXDLError then CommandErr e.code e.message else e))
    | Except.ok _ =>
      match env.update creds with
      | Except.error e => (pre ++ [Event.updateCall creds], Outcome.err e)
      | Except.ok _ => (pre ++ [Event.updateCall creds], Outcome.ok ())

/-- `askForCerts`: choose between service-generated certificates and an
operator-supplied file.  In the upload branch the path question loops
until an existing file is supplied; the file is read, base64-encoded and
validated (a classified validation failure becomes the specific
developer-portal `CommandError`), then persisted.  The outer handler
wraps classified errors with the generic message and re-raises
everything else unchanged. -/
def askForCerts (env : Env) : List Event × Outcome Unit :=
  let ev0 := [Event.collectFlow CredKind.cert, Event.promptShown qManageCerts]
  if env.manageCertificates then
    match env.fetchAppleCertificates with
    | Except.ok _ => (ev0 ++ [Event.fetchAppleCertsCall], Outcome.ok ())
    | Except.error e =>
      (ev0 ++ [Event.fetchAppleCertsCall],
        Outcome.err (if e.isXDLError then CommandErr e.code genericCertFailMsg else e))
  else
    match promptPathLoop env env.certPathInputs with
    | (tr, Outcome.ok p) =>
      let ev1 := ev0 ++ tr ++ [Event.promptShown qCertPassword, Event.readFileCall p]
      match env.readFileF p with
      | Except.error e =>
        (ev1, Outcome.err (if e.isXDLError then CommandErr e.code genericCertFailMsg else e))
      | Except.ok data =>
        let creds := certCredsOf env data
        let ev2 := ev1 ++ [Event.validateCall CredKind.cert (some creds)]
        match env.validate CredKind.cert (some creds) with
        | Except.error e =>
          let e2 := if e.isXDLError then CommandErr e.code certPortalMsg else e
          (ev2, Outcome.err (if e2.isXDLError then CommandErr e2.code genericCertFailMsg else e2))
        | Except.ok _ =>
          match env.update creds with
          | Except.error e =>
            (ev2 ++ [Event.updateCall creds],
              Outcome.err (if e.isXDLError then CommandErr e.code genericCertFailMsg else e))
          | Except.ok _ => (ev2 ++ [Event.updateCall creds], Outcome.ok ())
    | (tr, Outcome.err e) => (ev0 ++ tr, Outcome.err e)
    | (tr, Outcome.blocked) => (ev0 ++ tr, Outcome.blocked)

/-- `askForPushCerts`: same shape as `askForCerts` for push material,
with the push failure policy: the validity flag returned by the
generate/validate call is checked after the try/catch, any caught
unclassified error forces the flag to false, and a falsy flag raises the
generic classified error.  The update call happens as soon as the
validation call returns, before the flag is inspected. -/
def askForPushCerts (env : Env) : List Event × Outcome Unit :=
  let ev0 := [Event.collectFlow CredKind.push, Event.promptShown qManagePush]
  if env.managePushCertificates then
    match env.fetchPushCertificates with
    | Except.ok v =>
      (ev0 ++ [Event.fetchPushCertsCall],
        if v then Outcome.ok ()
        else Outcome.err (XDLErr credentialErrorCode genericCertFailMsg))
    | Except.error e =>
      (ev0 ++ [Event.fetchPushCertsCall],
        if e.isXDLError then Outcome.err e
        else Outcome.err (XDLErr credentialErrorCode genericCertFailMsg))
  else
    match promptPathLoop env env.pushPathInputs with
    | (tr, Outcome.ok p) =>
      let ev1 := ev0 ++ tr ++ [Event.promptShown qPushPassword, Event.readFileCall p]
      match env.readFileF p with
      | Except.error e =>
        (ev1,
          if e.isXDLError then Outcome.err e
          else Outcome.err (XDLErr credentialErrorCode genericCertFailMsg))
      | Except.ok data =>
        let creds := pushCredsOf env data
        let ev2 := ev1 ++ [Event.validateCall CredKind.push (some creds)]
        match env.validate CredKind.push (some creds) with
        | Except.error _ =>
          (ev2, Outcome.err (XDLErr credentialErrorCode pushPortalMsg))
        | Except.ok v =>
          match env.update creds with
          | Except.error e =>
            (ev2 ++ [Event.updateCall creds],
              if e.isXDLError then Outcome.err e
              else Outcome.err (XDLErr credentialErrorCode genericCertFailMsg))
          | Except.ok _ =>
            (ev2 ++ [Event.updateCall creds],
              if v then Outcome.ok ()
              else Outcome.err (XDLErr credentialErrorCode genericCertFailMsg))
    | (tr, Outcome.err e) => (ev0 ++ tr, Outcome.err e)
    | (tr, Outcome.blocked) => (ev0 ++ tr, Outcome.blocked)

/-- The presence flag computed for a kind from the fetched bundle and
the clear-credentials option (`hasAppleId` / `hasCert` / `hasPushCert`
in the source). -/
def hasKind (env : Env) (k : CredKind) : Bool :=
  if env.clearCredentials || env.existingCredentials.isNone then false
  else
    match env.existingCredentials with
    | some c => jsTruthy (kindField k c)
    | none => false

/-- Re-validation of stored material for one kind: a validate call with
no new data; any thrown error is replaced by the stored-invalid error
telling the operator to rerun with the clear flag. -/
def revalidateStep (env : Env) (k : CredKind) : List Event × Outcome Unit :=
  let tr := [Event.revalidateFlow k, Event.validateCall k none]
  match env.validate k none with
  | Except.ok _ => (tr, Outcome.ok ())
  | Except.error _ => (tr, Outcome.err (storedInvalidErr k))

/-- One per-kind step of the workflow: the collection flow when the
presence flag is false, the re-validation of stored material otherwise. -/
def credStep (env : Env) (k : CredKind) : List Event × Outcome Unit :=
  if hasKind env k then revalidateStep env k
  else
    match k with
    | CredKind.appleId => askForAppleId env
    | CredKind.cert => askForCerts env
    | CredKind.push => askForPushCerts env

/-- `collectAndValidateCredentials`: read the publish info and fail on a
falsy bundle identifier, fetch the existing bundle, run the Apple ID
step, the certificate step, the app-id registration (whose failure is
replaced by the change-your-bundle-identifier error), and the push
certificate step, stopping at the first failure. -/
def collectAndValidateCredentials (env : Env) : List Event × Outcome Unit :=
  if !(jsTruthy env.bundleIdentifier) then
    ([Event.getPublishInfoEv], Outcome.err (XDLErr invalidOptionsCode bundleIdMissingMsg))
  else
    let b := env.bundleIdentifier.getD ""
    let pre := [Event.getPublishInfoEv, Event.fetchExistingEv]
    let a := credStep env CredKind.appleId
    match a.2 with
    | Outcome.ok _ =>
      let c := credStep env CredKind.cert
      match c.2 with
      | Outcome.ok _ =>
        match env.ensureAppId with
        | Except.error _ =>
          (pre ++ a.1 ++ c.1 ++ [Event.ensureAppIdCall], Outcome.err (appIdErr b))
        | Except.ok _ =>
          let p := credStep env CredKind.push
          (pre ++ a.1 ++ c.1 ++ [Event.ensureAppIdCall] ++ p.1, p.2)
      | Outcome.err e => (pre ++ a.1 ++ c.1, Outcome.err e)
      | Outcome.blocked => (pre ++ a.1 ++ c.1, Outcome.blocked)
    | Outcome.err e => (pre ++ a.1, Outcome.err e)
    | Outcome.blocked => (pre ++ a.1, Outcome.blocked)

/-- `run`: packager status check, build status check, credential
collection/validation, publish, and build submission with the published
experience ids; each step runs once and any failure aborts the rest. -/
def run (env : Env) : List Event × Outcome Unit :=
  match env.checkPackagerStatus with
  | Except.error e => ([Event.checkPackagerCall], Outcome.err e)
  | Except.ok _ =>
    match env.checkStatus with
    | Except.error e =>
      ([Event.checkPackagerCall, Event.checkStatusCall], Outcome.err e)
    | Except.ok _ =>
      let pre := [Event.checkPackagerCall, Event.checkStatusCall]
      let c := collectAndValidateCredentials env
      match c.2 with
      | Outcome.ok _ =>
        match env.publishResult with
        | Except.error e => (pre ++ c.1 ++ [Event.publishCall], Outcome.err e)
        | Except.ok ids =>
          match env.buildResult ids with
          | Except.error e =>
            (pre ++ c.1 ++ [Event.publishCall, Event.buildCall ids], Outcome.err e)
          | Except.ok _ =>
            (pre ++ c.1 ++ [Event.publishCall, Event.buildCall ids], Outcome.ok ())
      | Outcome.err e => (pre ++ c.1, Outcome.err e)
      | Outcome.blocked => (pre ++ c.1, Outcome.blocked)

/-! ### Concrete values used by witnesses and counterexamples -/

/-- A sample unclassified (network) error. -/
def netCode : String := "ECONNRESET"

/-- Message of the sample unclassified error. -/
def netMsg : String := "socket hang up"

/-- The sample unclassified error value. -/
def eNet : JSError := { isXDLError := false, code := netCode, message := netMsg }

/-- A sample classified service error. -/
def eSvc : JSError := { isXDLError := true, code := credentialErrorCode, message := netMsg }

/-- Sample operator answer strings and project values. -/
def aW : String := "alice"

def pwW : String := "secret1"

def tW : String := "TEAM1"

def bidW : String := "com.example.app"

def pathW : String := "/certs/dist.p12"

def dataW : String := "p12data"

def expIdW : String := "exp-id-1"

/-- Base oracle environment in which every external call succeeds and
every prompt gets an acceptable answer. -/
def envBase : Env :=
  { clearCredentials := false
    username := aW
    experienceName := aW
    bundleIdentifier := some bidW
    existingCredentials := none
    validate := fun _ _ => Except.ok true
    update := fun _ => Except.ok ()
    fetchAppleCertificates := Except.ok ()
    fetchPushCertificates := Except.ok true
    ensureAppId := Except.ok ()
    checkPackagerStatus := Except.ok ()
    checkStatus := Except.ok ()
    publishResult := Except.ok [expIdW]
    buildResult := fun _ => Except.ok ()
    appleIdAnswer := aW
    passwordAnswer := pwW
    teamIdAnswer := tW
    manageCertificates := true
    certPathInputs := [pathW]
    certPasswordAnswer := ""
    managePushCertificates := true
    pushPathInputs := [pathW]
    pushPasswordAnswer := ""
    untildifyF := fun s => s
    resolveF := fun s => s
    isAbsoluteF := fun _ => true
    readFileF := fun _ => Except.ok dataW
    base64F := fun s => s
    isFileF := fun _ => true }

/-! ### C2 -/

/-- C2: in the push-certificate collection flow, when the auto-generate
branch is taken and the fetch call returns a falsy validity without
throwing any (classified or other) error, the flow raises the fatal
generic fetch/upload error instead of succeeding silently. -/
theorem c2_push_auto_falsy_validity_fatal (env : Env)
    (h1 : env.managePushCertificates = true)
    (h2 : env.fetchPushCertificates = Except.ok false) :
    (askForPushCerts env).2 =
      Outcome.err (XDLErr credentialErrorCode genericCertFailMsg) := by
  simp [askForPushCerts, h1, h2]

/-- Environment exercising C2: auto-generate chosen, fetch reports a
false validity without throwing. -/
def envC2 : Env := { envBase with fetchPushCertificates := Except.ok false }

/-- Witness for C2 at a concrete environment. -/
theorem c2_push_auto_falsy_validity_fatal_witness :
    (askForPushCerts envC2).2 =
      Outcome.err (XDLErr credentialErrorCode genericCertFailMsg) :=
  c2_push_auto_falsy_validity_fatal envC2 rfl rfl

/-! ### C5 -/

/-- C5: when stored Apple ID material is present (re-validate case) and
the re-validation call throws, the whole workflow stops at once with the
stored-credentials-invalid error telling the operator to rerun with the
clear-credentials flag; the resulting trace shows that no certificate,
app-id registration or push-certificate activity happened afterwards. -/
theorem c5_appleid_revalidation_failure_stops_run (env : Env) (e : JSError)
    (hb : jsTruthy env.bundleIdentifier = true)
    (hk : hasKind env CredKind.appleId = true)
    (hv : env.validate CredKind.appleId none = Except.error e) :
    collectAndValidateCredentials env =
      ([Event.getPublishInfoEv, Event.fetchExistingEv,
        Event.revalidateFlow CredKind.appleId,
        Event.validateCall CredKind.appleId none],
        Outcome.err (XDLErr credentialErrorCode storedAppleInvalidMsg)) := by
  simp [collectAndValidateCredentials, hb, credStep, hk, revalidateStep, hv,
    storedInvalidErr]

/-- Stored bundle containing only an Apple ID. -/
def credsAppleOnly : IOSCredentials := { appleId := some aW }

/-- Environment exercising C5: stored Apple ID present, its
re-validation throws an unclassified error. -/
def envC5 : Env :=
  { envBase with
    existingCredentials := some credsAppleOnly
    validate := fun k d =>
      match k, d with
      | CredKind.appleId, none => Except.error eNet
      | _, _ => Except.ok true }

/-- Witness for C5 at a concrete environment. -/
theorem c5_appleid_revalidation_failure_stops_run_witness :
    collectAndValidateCredentials envC5 =
      ([Event.getPublishInfoEv, Event.fetchExistingEv,
        Event.revalidateFlow CredKind.appleId,
        Event.validateCall CredKind.appleId none],
        Outcome.err (XDLErr credentialErrorCode storedAppleInvalidMsg)) :=
  c5_appleid_revalidation_failure_stops_run envC5 eNet (by decide) (by decide) rfl

/-! ### C8 -/

/-- C8: with no bundle identifier in the project configuration the
workflow fails immediately with the `INVALID_OPTIONS` configuration
error: the trace holds only the publish-info read, so no credential
fetch, no prompt, no validation and no update ever happened. -/
theorem c8_missing_bundle_identifier_fails_first (env : Env)
    (hb : env.bundleIdentifier = none) :
    collectAndValidateCredentials env =
      ([Event.getPublishInfoEv],
        Outcome.err (XDLErr invalidOptionsCode bundleIdMissingMsg))
    ∧ (∀ q, Event.promptShown q ∉ (collectAndValidateCredentials env).1)
    ∧ Event.fetchExistingEv ∉ (collectAndValidateCredentials env).1
    ∧ (∀ k d, Event.validateCall k d ∉ (collectAndValidateCredentials env).1)
    ∧ (∀ c, Event.updateCall c ∉ (collectAndValidateCredentials env).1) := by
  have h : collectAndValidateCredentials env =
      ([Event.getPublishInfoEv],
        Outcome.err (XDLErr invalidOptionsCode bundleIdMissingMsg)) := by
    simp [collectAndValidateCredentials, hb, jsTruthy]
  refine ⟨h, ?_, ?_, ?_, ?_⟩ <;> simp [h]

/-- Environment exercising C8: no bundle identifier configured. -/
def envC8 : Env := { envBase with bundleIdentifier := none }

/-- Witness for C8 at a concrete environment. -/
theorem c8_missing_bundle_identifier_fails_first_witness :
    collectAndValidateCredentials envC8 =
      ([Event.getPublishInfoEv],
        Outcome.err (XDLErr invalidOptionsCode bundleIdMissingMsg)) :=
  (c8_missing_bundle_identifier_fails_first envC8 rfl).1

/-! ### Trace helper lemmas -/

/-- Every event of the path-question loop is a display of that prompt. -/
theorem promptPathLoop_mem (env : Env) (l : List String) :
    ∀ e ∈ (promptPathLoop env l).1, e = Event.promptShown qPathToP12 := by
  induction l with
  | nil => intro e he; simpa [promptPathLoop] using he
  | cons a t ih =>
    intro e he
    by_cases h : env.isFileF (filterP12Path env a)
    · simp [promptPathLoop, h] at he; simp [he]
    · simp [promptPathLoop, h] at he
      rcases he with he | he
      · simp [he]
      · exact ih e he

/-- Version of `promptPathLoop_mem` for an equation hypothesis. -/
theorem promptPathLoop_fst_mem (env : Env) (l : List String)
    (tr : List Event) (out : Outcome String)
    (h : promptPathLoop env l = (tr, out)) :
    ∀ e ∈ tr, e = Event.promptShown qPathToP12 := by
  intro e he
  exact promptPathLoop_mem env l e (by rw [h]; exact he)

/-- If the path question accepts a path, that path passed the file
check, it is the filtered form of the first scripted input whose
filtered form passes the check, and one prompt was shown per rejected
input plus one for the accepted input. -/
theorem promptPathLoop_ok (env : Env) :
    ∀ (l : List String) (tr : List Event) (p : String),
      promptPathLoop env l = (tr, Outcome.ok p) →
      env.isFileF p = true ∧
      ∃ pre raw post, l = pre ++ raw :: post ∧ p = filterP12Path env raw ∧
        (∀ r ∈ pre, env.isFileF (filterP12Path env r) = false) ∧
        tr = List.replicate (pre.length + 1) (Event.promptShown qPathToP12) := by
  intro l
  induction l with
  | nil => intro tr p h; simp [promptPathLoop] at h
  | cons a t ih =>
    intro tr p h
    by_cases hf : env.isFileF (filterP12Path env a) = true
    · simp [promptPathLoop, hf] at h
      obtain ⟨htr, hp⟩ := h
      subst hp
      refine ⟨hf, [], a, t, by simp, rfl, by simp, ?_⟩
      rw [← htr]; simp
    · have hf2 : env.isFileF (filterP12Path env a) = false := by simpa using hf
      simp [promptPathLoop, hf2] at h
      obtain ⟨htr, hout⟩ := h
      have ht : promptPathLoop env t = ((promptPathLoop env t).1, Outcome.ok p) := by
        rw [← hout]
      obtain ⟨hfile, pre, raw, post, hl, hpr, hpre, htr2⟩ :=
        ih (promptPathLoop env t).1 p ht
      refine ⟨hfile, a :: pre, raw, post, by simp [hl], hpr, ?_, ?_⟩
      · intro r hr
        rcases List.mem_cons.mp hr with hr | hr
        · rw [hr]; exact hf2
        · exact hpre r hr
      · rw [← htr, htr2]
        simp [List.replicate_succ]

/-- Inversion for file reads in the certificate flow: a read only
happens in the upload branch, at the path the path question accepted. -/
theorem askForCerts_readFile_inv (env : Env) (p : String)
    (h : Event.readFileCall p ∈ (askForCerts env).1) :
    env.manageCertificates = false ∧
    ∃ tr0, promptPathLoop env env.certPathInputs = (tr0, Outcome.ok p) := by
  by_cases hm : env.manageCertificates = true
  · exfalso
    cases hfc : env.fetchAppleCertificates with
    | ok u => simp [askForCerts, hm, hfc] at h
    | error e => simp [askForCerts, hm, hfc] at h
  · have hm2 : env.manageCertificates = false := by simpa using hm
    rcases hl : promptPathLoop env env.certPathInputs with ⟨tr0, out⟩
    have hloopmem := promptPathLoop_fst_mem env env.certPathInputs tr0 out hl
    cases out with
    | ok p0 =>
      refine ⟨hm2, tr0, ?_⟩
      have hp : p = p0 := by
        cases hrf : env.readFileF p0 with
        | error e1 =>
          simp [askForCerts, hm2, hl, hrf] at h
          rcases h with h | h
          · exact absurd (hloopmem _ h) (by simp)
          · exact h
        | ok d =>
          cases hv : env.validate CredKind.cert (some (certCredsOf env d)) with
          | error e2 =>
            simp [askForCerts, hm2, hl, hrf, hv] at h
            rcases h with h | h
            · exact absurd (hloopmem _ h) (by simp)
            · exact h
          | ok b =>
            cases hu : env.update (certCredsOf env d) with
            | error e3 =>
              simp [askForCerts, hm2, hl, hrf, hv, hu] at h
              rcases h with h | h
              · exact absurd (hloopmem _ h) (by simp)
              · exact h
            | ok u =>
              simp [askForCerts, hm2, hl, hrf, hv, hu] at h
              rcases h with h | h
              · exact absurd (hloopmem _ h) (by simp)
              · exact h
      subst hp
      rfl
    | err e =>
      exfalso
      simp [askForCerts, hm2, hl] at h
      exact absurd (hloopmem _ h) (by simp)
    | blocked =>
      exfalso
      simp [askForCerts, hm2, hl] at h
      exact absurd (hloopmem _ h) (by simp)

/-! ### C7 -/

/-- C7: in the operator-supplied certificate branch, every scripted path
input is tilde-expanded and resolved (the question filter) before the
existence check; the question re-prompts once per failing input and only
accepts a filtered path that passes the check; a file read only ever
happens at a path that passed the check; while the path question has
accepted nothing, no read, validation or update happens at all; and
under the resolver contract the accepted path is absolute. -/
theorem c7_cert_path_validated_before_use (env : Env) :
    (∀ p, Event.readFileCall p ∈ (askForCerts env).1 → env.isFileF p = true)
    ∧ (∀ l tr p, promptPathLoop env l = (tr, Outcome.ok p) →
        env.isFileF p = true ∧
        ∃ pre raw post, l = pre ++ raw :: post ∧ p = filterP12Path env raw ∧
          (∀ r ∈ pre, env.isFileF (filterP12Path env r) = false) ∧
          tr = List.replicate (pre.length + 1) (Event.promptShown qPathToP12))
    ∧ (∀ tr, env.manageCertificates = false →
        promptPathLoop env env.certPathInputs = (tr, Outcome.blocked) →
        (askForCerts env).2 = Outcome.blocked ∧
        (∀ p, Event.readFileCall p ∉ (askForCerts env).1) ∧
        (∀ k d, Event.validateCall k d ∉ (askForCerts env).1) ∧
        (∀ c, Event.updateCall c ∉ (askForCerts env).1))
    ∧ ((∀ s, env.isAbsoluteF (env.resolveF s) = true) →
        ∀ p, Event.readFileCall p ∈ (askForCerts env).1 →
        env.isAbsoluteF p = true) := by
  have hread : ∀ p, Event.readFileCall p ∈ (askForCerts env).1 →
      env.isFileF p = true := by
    intro p hp
    obtain ⟨-, tr0, h0⟩ := askForCerts_readFile_inv env p hp
    exact (promptPathLoop_ok env env.certPathInputs tr0 p h0).1
  refine ⟨hread, fun l tr p h => promptPathLoop_ok env l tr p h, ?_, ?_⟩
  · intro tr hm hl
    have hmem := promptPathLoop_fst_mem env env.certPathInputs tr Outcome.blocked hl
    refine ⟨by simp [askForCerts, hm, hl], ?_, ?_, ?_⟩
    · intro p hp
      simp [askForCerts, hm, hl] at hp
      exact absurd (hmem _ hp) (by simp)
    · intro k d hp
      simp [askForCerts, hm, hl] at hp
      exact absurd (hmem _ hp) (by simp)
    · intro c hp
      simp [askForCerts, hm, hl] at hp
      exact absurd (hmem _ hp) (by simp)
  · intro habs p hp
    obtain ⟨-, tr0, h0⟩ := askForCerts_readFile_inv env p hp
    obtain ⟨-, pre, raw, post, -, hpr, -, -⟩ :=
      promptPathLoop_ok env env.certPathInputs tr0 p h0
    rw [hpr]
    unfold filterP12Path
    by_cases ha : env.isAbsoluteF (env.untildifyF raw) = true
    · simp [ha]
    · have ha2 : env.isAbsoluteF (env.untildifyF raw) = false := by simpa using ha
      simp [ha2, habs]

/-- Environment exercising C7: upload branch with an accepted path. -/
def envC7 : Env := { envBase with manageCertificates := false }

/-- Environment exercising C7 with a path prompt that never accepts. -/
def envC7b : Env :=
  { envBase with manageCertificates := false, certPathInputs := [] }

/-- Witness for C7 at concrete environments: the read path passed the
file check, the exhausted prompt blocks the flow, and the accepted path
is absolute. -/
theorem c7_cert_path_validated_before_use_witness :
    envC7.isFileF pathW = true
    ∧ (askForCerts envC7b).2 = Outcome.blocked
    ∧ envC7.isAbsoluteF pathW = true :=
  ⟨(c7_cert_path_validated_before_use envC7).1 pathW (by decide),
    ((c7_cert_path_validated_before_use envC7b).2.2.1
      [Event.promptShown qPathToP12] rfl rfl).1,
    (c7_cert_path_validated_before_use envC7).2.2.2
      (fun _ => rfl) pathW (by decide)⟩

/-! ### C3 -/

/-- C3 (amended): error policy of the certificate collection flow.  An
unclassified error from any call of the flow (auto-fetch, file read,
upload validation, update) propagates as fatal completely unchanged; the
generic fetch/upload wrap applies to classified errors of the auto-fetch
branch and of the update call, while a classified upload-validation
failure surfaces as the specific developer-portal message. -/
theorem c3_cert_flow_error_policy (env : Env) :
    (∀ e, env.manageCertificates = true →
      env.fetchAppleCertificates = Except.error e →
      (e.isXDLError = false → (askForCerts env).2 = Outcome.err e)
      ∧ (e.isXDLError = true →
          (askForCerts env).2 = Outcome.err (CommandErr e.code genericCertFailMsg)))
    ∧ (∀ e tr0 p, env.manageCertificates = false →
        promptPathLoop env env.certPathInputs = (tr0, Outcome.ok p) →
        env.readFileF p = Except.error e →
        (e.isXDLError = false → (askForCerts env).2 = Outcome.err e)
        ∧ (e.isXDLError = true →
            (askForCerts env).2 = Outcome.err (CommandErr e.code genericCertFailMsg)))
    ∧ (∀ e tr0 p d, env.manageCertificates = false →
        promptPathLoop env env.certPathInputs = (tr0, Outcome.ok p) →
        env.readFileF p = Except.ok d →
        env.validate CredKind.cert (some (certCredsOf env d)) = Except.error e →
        (e.isXDLError = false → (askForCerts env).2 = Outcome.err e)
        ∧ (e.isXDLError = true →
            (askForCerts env).2 = Outcome.err (CommandErr e.code certPortalMsg)))
    ∧ (∀ e tr0 p d b, env.manageCertificates = false →
        promptPathLoop env env.certPathInputs = (tr0, Outcome.ok p) →
        env.readFileF p = Except.ok d →
        env.validate CredKind.cert (some (certCredsOf env d)) = Except.ok b →
        env.update (certCredsOf env d) = Except.error e →
        (e.isXDLError = false → (askForCerts env).2 = Outcome.err e)
        ∧ (e.isXDLError = true →
            (askForCerts env).2 = Outcome.err (CommandErr e.code genericCertFailMsg))) := by
  refine ⟨?_, ?_, ?_, ?_⟩
  · intro e hm hf
    constructor <;> intro hx <;> simp [askForCerts, hm, hf, hx]
  · intro e tr0 p hm hl hr
    constructor <;> intro hx <;> simp [askForCerts, hm, hl, hr, hx]
  · intro e tr0 p d hm hl hr hv
    constructor <;> intro hx <;> simp [askForCerts, hm, hl, hr, hv, hx, CommandErr]
  · intro e tr0 p d b hm hl hr hv hu
    constructor <;> intro hx <;> simp [askForCerts, hm, hl, hr, hv, hu, hx]

/-- Environment refuting the wrap-with-generic-message reading of C3:
auto-fetch branch throwing an unclassified network error. -/
def envC3x : Env := { envBase with fetchAppleCertificates := Except.error eNet }

/-- Counterexample for C3 as stated: an unclassified error in the
certificate collection flow propagates with its own message, not
wrapped with the generic fetch/upload message. -/
theorem c3_counterexample :
    envC3x.fetchAppleCertificates = Except.error eNet
    ∧ eNet.isXDLError = false
    ∧ (askForCerts envC3x).2 = Outcome.err eNet
    ∧ eNet.message ≠ genericCertFailMsg := by
  refine ⟨rfl, rfl, by decide, by decide⟩

/-- Environment exercising the classified upload-validation clause. -/
def envC3w : Env :=
  { envBase with
    manageCertificates := false
    validate := fun k d =>
      match k, d with
      | CredKind.cert, some _ => Except.error eSvc
      | _, _ => Except.ok true }

/-- Witness for C3 (amended) at concrete environments: the unclassified
auto-fetch error propagates unchanged, and a classified upload
validation failure surfaces the developer-portal message. -/
theorem c3_cert_flow_error_policy_witness :
    (askForCerts envC3x).2 = Outcome.err eNet
    ∧ (askForCerts envC3w).2 = Outcome.err (CommandErr eSvc.code certPortalMsg) :=
  ⟨((c3_cert_flow_error_policy envC3x).1 eNet rfl rfl).1 rfl,
    ((c3_cert_flow_error_policy envC3w).2.2.1 eSvc
      [Event.promptShown qPathToP12] pathW dataW rfl rfl rfl rfl).2 rfl⟩

/-! ### C4 -/

/-- A re-validation step never performs an update call. -/
theorem revalidateStep_no_update (env : Env) (k : CredKind) (c : IOSCredentials) :
    Event.updateCall c ∉ (revalidateStep env k).1 := by
  cases hv : env.validate k none with
  | ok b => simp [revalidateStep, hv]
  | error e => simp [revalidateStep, hv]

/-- Inversion for update calls of the Apple ID flow: the update targets
the prompted credentials and its validation call returned normally. -/
theorem askForAppleId_update_inv (env : Env) (c : IOSCredentials)
    (h : Event.updateCall c ∈ (askForAppleId env).1) :
    c = appleCredsOf env ∧
    ∃ b, env.validate CredKind.appleId (some (appleCredsOf env)) = Except.ok b := by
  by_cases h1 : env.appleIdAnswer == ""
  · simp [askForAppleId, h1] at h
  · have h1f : (env.appleIdAnswer == "") = false := by simpa using h1
    by_cases h2 : env.passwordAnswer == ""
    · simp [askForAppleId, h1f, h2] at h
    · have h2f : (env.passwordAnswer == "") = false := by simpa using h2
      by_cases h3 : env.teamIdAnswer == ""
      · simp [askForAppleId, h1f, h2f, h3] at h
      · have h3f : (env.teamIdAnswer == "") = false := by simpa using h3
        cases hv : env.validate CredKind.appleId (some (appleCredsOf env)) with
        | error e => simp [askForAppleId, h1f, h2f, h3f, hv] at h
        | ok b =>
          cases hu : env.update (appleCredsOf env) with
          | error e =>
            simp [askForAppleId, h1f, h2f, h3f, hv, hu] at h
            exact ⟨h, b, rfl⟩
          | ok u =>
            simp [askForAppleId, h1f, h2f, h3f, hv, hu] at h
            exact ⟨h, b, rfl⟩

/-- Inversion for update calls of the certificate flow: the update
targets the uploaded credentials and their validation call returned
normally. -/
theorem askForCerts_update_inv (env : Env) (c : IOSCredentials)
    (h : Event.updateCall c ∈ (askForCerts env).1) :
    ∃ d, c = certCredsOf env d ∧
      ∃ b, env.validate CredKind.cert (some (certCredsOf env d)) = Except.ok b := by
  by_cases hm : env.manageCertificates = true
  · exfalso
    cases hfc : env.fetchAppleCertificates with
    | ok u => simp [askForCerts, hm, hfc] at h
    | error e => simp [askForCerts, hm, hfc] at h
  · have hm2 : env.manageCertificates = false := by simpa using hm
    rcases hl : promptPathLoop env env.certPathInputs with ⟨tr0, out⟩
    have hloopmem := promptPathLoop_fst_mem env env.certPathInputs tr0 out hl
    cases out with
    | ok p0 =>
      cases hrf : env.readFileF p0 with
      | error e1 =>
        exfalso
        simp [askForCerts, hm2, hl, hrf] at h
        exact absurd (hloopmem _ h) (by simp)
      | ok d =>
        cases hv : env.validate CredKind.cert (some (certCredsOf env d)) with
        | error e2 =>
          exfalso
          simp [askForCerts, hm2, hl, hrf, hv] at h
          exact absurd (hloopmem _ h) (by simp)
        | ok b =>
          cases hu : env.update (certCredsOf env d) with
          | error e3 =>
            simp [askForCerts, hm2, hl, hrf, hv, hu] at h
            rcases h with h | h
            · exact absurd (hloopmem _ h) (by simp)
            · exact ⟨d, h, b, hv⟩
          | ok u =>
            simp [askForCerts, hm2, hl, hrf, hv, hu] at h
            rcases h with h | h
            · exact absurd (hloopmem _ h) (by simp)
            · exact ⟨d, h, b, hv⟩
    | err e =>
      exfalso
      simp [askForCerts, hm2, hl] at h
      exact absurd (hloopmem _ h) (by simp)
    | blocked =>
      exfalso
      simp [askForCerts, hm2, hl] at h
      exact absurd (hloopmem _ h) (by simp)

/-- Inversion for update calls of the push-certificate flow: the update
targets the uploaded credentials, their validation call returned
normally, and if the returned validity was false the flow nevertheless
performed the update and then failed. -/
theorem askForPushCerts_update_inv (env : Env) (c : IOSCredentials)
    (h : Event.updateCall c ∈ (askForPushCerts env).1) :
    ∃ d, c = pushCredsOf env d ∧
      ∃ v, env.validate CredKind.push (some (pushCredsOf env d)) = Except.ok v ∧
        (v = false → ∃ e2, (askForPushCerts env).2 = Outcome.err e2) := by
  by_cases hm : env.managePushCertificates = true
  · exfalso
    cases hfc : env.fetchPushCertificates with
    | ok u => simp [askForPushCerts, hm, hfc] at h
    | error e => simp [askForPushCerts, hm, hfc] at h
  · have hm2 : env.managePushCertificates = false := by simpa using hm
    rcases hl : promptPathLoop env env.pushPathInputs with ⟨tr0, out⟩
    have hloopmem := promptPathLoop_fst_mem env env.pushPathInputs tr0 out hl
    cases out with
    | ok p0 =>
      cases hrf : env.readFileF p0 with
      | error e1 =>
        exfalso
        simp [askForPushCerts, hm2, hl, hrf] at h
        exact absurd (hloopmem _ h) (by simp)
      | ok d =>
        cases hv : env.validate CredKind.push (some (pushCredsOf env d)) with
        | error e2 =>
          exfalso
          simp [askForPushCerts, hm2, hl, hrf, hv] at h
          exact absurd (hloopmem _ h) (by simp)
        | ok v =>
          cases hu : env.update (pushCredsOf env d) with
          | error e3 =>
            simp [askForPushCerts, hm2, hl, hrf, hv, hu] at h
            rcases h with h | h
            · exact absurd (hloopmem _ h) (by simp)
            · refine ⟨d, h, v, hv, fun hvf => ?_⟩
              by_cases hx : e3.isXDLError = true
              · exact ⟨e3, by simp [askForPushCerts, hm2, hl, hrf, hv, hu, hx]⟩
              · have hx2 : e3.isXDLError = false := by simpa using hx
                exact ⟨XDLErr credentialErrorCode genericCertFailMsg,
                  by simp [askForPushCerts, hm2, hl, hrf, hv, hu, hx2]⟩
          | ok u =>
            simp [askForPushCerts, hm2, hl, hrf, hv, hu] at h
            rcases h with h | h
            · exact absurd (hloopmem _ h) (by simp)
            · refine ⟨d, h, v, hv, fun hvf => ?_⟩
              exact ⟨XDLErr credentialErrorCode genericCertFailMsg,
                by simp [askForPushCerts, hm2, hl, hrf, hv, hu, hvf]⟩
    | err e =>
      exfalso
      simp [askForPushCerts, hm2, hl] at h
      exact absurd (hloopmem _ h) (by simp)
    | blocked =>
      exfalso
      simp [askForPushCerts, hm2, hl] at h
      exact absurd (hloopmem _ h) (by simp)

/-- C4 (amended): an update call only ever happens for credentials whose
validation call returned normally (no update after a thrown validation
error, and none at all during re-validation of stored material); in the
Apple ID and certificate flows this coincides with validation success,
but in the push-certificate upload branch the update is also applied
when the validation call returns a false validity, in which case the
flow still ends in a fatal error rather than succeeding. -/
theorem c4_update_only_after_validation (env : Env) :
    (∀ c, Event.updateCall c ∈ (askForAppleId env).1 →
        ∃ b, env.validate CredKind.appleId (some c) = Except.ok b)
    ∧ (∀ c, Event.updateCall c ∈ (askForCerts env).1 →
        ∃ b, env.validate CredKind.cert (some c) = Except.ok b)
    ∧ (∀ c, Event.updateCall c ∈ (askForPushCerts env).1 →
        ∃ b, env.validate CredKind.push (some c) = Except.ok b)
    ∧ (∀ k c, Event.updateCall c ∉ (revalidateStep env k).1)
    ∧ (∀ c, Event.updateCall c ∈ (askForPushCerts env).1 →
        env.validate CredKind.push (some c) = Except.ok false →
        ∃ e2, (askForPushCerts env).2 = Outcome.err e2) := by
  refine ⟨?_, ?_, ?_, ?_, ?_⟩
  · intro c hc
    obtain ⟨hce, b, hb⟩ := askForAppleId_update_inv env c hc
    exact ⟨b, by rw [hce]; exact hb⟩
  · intro c hc
    obtain ⟨d, hce, b, hb⟩ := askForCerts_update_inv env c hc
    exact ⟨b, by rw [hce]; exact hb⟩
  · intro c hc
    obtain ⟨d, hce, v, hb, -⟩ := askForPushCerts_update_inv env c hc
    exact ⟨v, by rw [hce]; exact hb⟩
  · intro k c
    exact revalidateStep_no_update env k c
  · intro c hc hvf
    obtain ⟨d, hce, v, hb, hfail⟩ := askForPushCerts_update_inv env c hc
    have hv2 : v = false := by
      rw [hce] at hvf
      exact Except.ok.inj (hb.symm.trans hvf)
    exact hfail hv2

/-- Environment refuting C4 as stated: push upload branch whose
validation call reports a false validity without throwing. -/
def envC4x : Env :=
  { envBase with
    managePushCertificates := false
    validate := fun k d =>
      match k, d with
      | CredKind.push, some _ => Except.ok false
      | _, _ => Except.ok true }

/-- Counterexample for C4 as stated: the push-certificate update is
applied although the push validation reported a false validity, and the
workflow then fails. -/
theorem c4_counterexample :
    envC4x.validate CredKind.push (some (pushCredsOf envC4x dataW)) = Except.ok false
    ∧ Event.updateCall (pushCredsOf envC4x dataW) ∈ (askForPushCerts envC4x).1
    ∧ (askForPushCerts envC4x).2 =
        Outcome.err (XDLErr credentialErrorCode genericCertFailMsg) :=
  ⟨rfl, by decide, by decide⟩

/-- Witness for C4 (amended) at concrete environments. -/
theorem c4_update_only_after_validation_witness :
    (∃ b, envBase.validate CredKind.appleId
        (some (appleCredsOf envBase)) = Except.ok b)
    ∧ (∃ e2, (askForPushCerts envC4x).2 = Outcome.err e2) :=
  ⟨(c4_update_only_after_validation envBase).1 (appleCredsOf envBase) (by decide),
    (c4_update_only_after_validation envC4x).2.2.2.2
      (pushCredsOf envC4x dataW) (by decide) rfl⟩

/-! ### Flow-event counting, towards C1 and C6 -/

/-- The path-question loop contributes no flow-dispatch events. -/
theorem promptPathLoop_flow_count (env : Env) (l : List String)
    (tr : List Event) (out : Outcome String)
    (h : promptPathLoop env l = (tr, out)) (k : CredKind) :
    tr.count (Event.collectFlow k) = 0
    ∧ tr.count (Event.revalidateFlow k) = 0 := by
  constructor <;>
    exact List.count_eq_zero_of_not_mem
      (fun hm => by
        have := promptPathLoop_fst_mem env l tr out h _ hm
        simp at this)

/-- Flow-dispatch events recorded by the Apple ID collection flow. -/
theorem askForAppleId_flow_count (env : Env) (k : CredKind) :
    (askForAppleId env).1.count (Event.collectFlow k)
      = (if k = CredKind.appleId then 1 else 0)
    ∧ (askForAppleId env).1.count (Event.revalidateFlow k) = 0 := by
  by_cases h1 : env.appleIdAnswer == ""
  · by_cases hk : k = CredKind.appleId <;> simp [askForAppleId, h1, hk]
  · have h1f : (env.appleIdAnswer == "") = false := by simpa using h1
    by_cases h2 : env.passwordAnswer == ""
    · by_cases hk : k = CredKind.appleId <;> simp [askForAppleId, h1f, h2, hk]
    · have h2f : (env.passwordAnswer == "") = false := by simpa using h2
      by_cases h3 : env.teamIdAnswer == ""
      · by_cases hk : k = CredKind.appleId <;> simp [askForAppleId, h1f, h2f, h3, hk]
      · have h3f : (env.teamIdAnswer == "") = false := by simpa using h3
        cases hv : env.validate CredKind.appleId (some (appleCredsOf env)) with
        | error e =>
          by_cases hk : k = CredKind.appleId <;>
            simp [askForAppleId, h1f, h2f, h3f, hv, hk]
        | ok b =>
          cases hu : env.update (appleCredsOf env) with
          | error e =>
            by_cases hk : k = CredKind.appleId <;>
              simp [askForAppleId, h1f, h2f, h3f, hv, hu, hk]
          | ok u =>
            by_cases hk : k = CredKind.appleId <;>
              simp [askForAppleId, h1f, h2f, h3f, hv, hu, hk]

/-- Flow-dispatch events recorded by the certificate collection flow. -/
theorem askForCerts_flow_count (env : Env) (k : CredKind) :
    (askForCerts env).1.count (Event.collectFlow k)
      = (if k = CredKind.cert then 1 else 0)
    ∧ (askForCerts env).1.count (Event.revalidateFlow k) = 0 := by
  by_cases hm : env.manageCertificates = true
  · cases hfc : env.fetchAppleCertificates with
    | ok u =>
      by_cases hk : k = CredKind.cert <;> simp [askForCerts, hm, hfc, hk]
    | error e =>
      by_cases hk : k = CredKind.cert <;> simp [askForCerts, hm, hfc, hk]
  · have hm2 : env.manageCertificates = false := by simpa using hm
    rcases hl : promptPathLoop env env.certPathInputs with ⟨tr0, out⟩
    have hlf := promptPathLoop_flow_count env env.certPathInputs tr0 out hl
    cases out with
    | ok p0 =>
      cases hrf : env.readFileF p0 with
      | error e1 =>
        by_cases hk : k = CredKind.cert <;>
          simp [askForCerts, hm2, hl, hrf, hk, hlf]
      | ok d =>
        cases hv : env.validate CredKind.cert (some (certCredsOf env d)) with
        | error e2 =>
          by_cases hk : k = CredKind.cert <;>
            simp [askForCerts, hm2, hl, hrf, hv, hk, hlf]
        | ok b =>
          cases hu : env.update (certCredsOf env d) with
          | error e3 =>
            by_cases hk : k = CredKind.cert <;>
              simp [askForCerts, hm2, hl, hrf, hv, hu, hk, hlf]
          | ok u =>
            by_cases hk : k = CredKind.cert <;>
              simp [askForCerts, hm2, hl, hrf, hv, hu, hk, hlf]
    | err e =>
      by_cases hk : k = CredKind.cert <;> simp [askForCerts, hm2, hl, hk, hlf]
    | blocked =>
      by_cases hk : k = CredKind.cert <;> simp [askForCerts, hm2, hl, hk, hlf]

/-- Flow-dispatch events recorded by the push collection flow. -/
theorem askForPushCerts_flow_count (env : Env) (k : CredKind) :
    (askForPushCerts env).1.count (Event.collectFlow k)
      = (if k = CredKind.push then 1 else 0)
    ∧ (askForPushCerts env).1.count (Event.revalidateFlow k) = 0 := by
  by_cases hm : env.managePushCertificates = true
  · cases hfc : env.fetchPushCertificates with
    | ok v =>
      by_cases hk : k = CredKind.push <;> simp [askForPushCerts, hm, hfc, hk]
    | error e =>
      by_cases hk : k = CredKind.push <;> simp [askForPushCerts, hm, hfc, hk]
  · have hm2 : env.managePushCertificates = false := by simpa using hm
    rcases hl : promptPathLoop env env.pushPathInputs with ⟨tr0, out⟩
    have hlf := promptPathLoop_flow_count env env.pushPathInputs tr0 out hl
    cases out with
    | ok p0 =>
      cases hrf : env.readFileF p0 with
      | error e1 =>
        by_cases hk : k = CredKind.push <;>
          simp [askForPushCerts, hm2, hl, hrf, hk, hlf]
      | ok d =>
        cases hv : env.validate CredKind.push (some (pushCredsOf env d)) with
        | error e2 =>
          by_cases hk : k = CredKind.push <;>
            simp [askForPushCerts, hm2, hl, hrf, hv, hk, hlf]
        | ok v =>
          cases hu : env.update (pushCredsOf env d) with
          | error e3 =>
            by_cases hk : k = CredKind.push <;>
              simp [askForPushCerts, hm2, hl, hrf, hv, hu, hk, hlf]
          | ok u =>
            by_cases hk : k = CredKind.push <;>
              simp [askForPushCerts, hm2, hl, hrf, hv, hu, hk, hlf]
    | err e =>
      by_cases hk : k = CredKind.push <;> simp [askForPushCerts, hm2, hl, hk, hlf]
    | blocked =>
      by_cases hk : k = CredKind.push <;> simp [askForPushCerts, hm2, hl, hk, hlf]

/-- Flow-dispatch events recorded by a re-validation step. -/
theorem revalidateStep_flow_count (env : Env) (k k0 : CredKind) :
    (revalidateStep env k).1.count (Event.collectFlow k0) = 0
    ∧ (revalidateStep env k).1.count (Event.revalidateFlow k0)
      = (if k0 = k then 1 else 0) := by
  cases hv : env.validate k none with
  | ok b => by_cases hk : k0 = k <;> simp [revalidateStep, hv, hk]
  | error e => by_cases hk : k0 = k <;> simp [revalidateStep, hv, hk]

/-- A per-kind step dispatches exactly one flow event of its own kind,
the collection one when the presence flag is false and the re-validate
one when it is true. -/
theorem credStep_flow_count (env : Env) (k : CredKind) :
    (credStep env k).1.count (Event.collectFlow k)
      = (if hasKind env k = false then 1 else 0)
    ∧ (credStep env k).1.count (Event.revalidateFlow k)
      = (if hasKind env k = true then 1 else 0) := by
  by_cases hh : hasKind env k = true
  · obtain ⟨h1, h2⟩ := revalidateStep_flow_count env k k
    simp [credStep, hh, h1, h2]
  · have hh2 : hasKind env k = false := by simpa using hh
    cases k with
    | appleId =>
      obtain ⟨h1, h2⟩ := askForAppleId_flow_count env CredKind.appleId
      simp [credStep, hh2, h1, h2]
    | cert =>
      obtain ⟨h1, h2⟩ := askForCerts_flow_count env CredKind.cert
      simp [credStep, hh2, h1, h2]
    | push =>
      obtain ⟨h1, h2⟩ := askForPushCerts_flow_count env CredKind.push
      simp [credStep, hh2, h1, h2]

/-- A per-kind step dispatches no flow events of other kinds. -/
theorem credStep_flow_count_other (env : Env) (k k0 : CredKind) (hne : k0 ≠ k) :
    (credStep env k).1.count (Event.collectFlow k0) = 0
    ∧ (credStep env k).1.count (Event.revalidateFlow k0) = 0 := by
  by_cases hh : hasKind env k = true
  · obtain ⟨h1, h2⟩ := revalidateStep_flow_count env k k0
    simp [credStep, hh, h1, h2, hne]
  · have hh2 : hasKind env k = false := by simpa using hh
    cases k with
    | appleId =>
      obtain ⟨h1, h2⟩ := askForAppleId_flow_count env k0
      simp [credStep, hh2, h1, h2, hne]
    | cert =>
      obtain ⟨h1, h2⟩ := askForCerts_flow_count env k0
      simp [credStep, hh2, h1, h2, hne]
    | push =>
      obtain ⟨h1, h2⟩ := askForPushCerts_flow_count env k0
      simp [credStep, hh2, h1, h2, hne]

deriving instance DecidableEq for Except

/-- Whether the workflow reaches the step of a given kind: the Apple ID
step needs a truthy bundle identifier, the certificate step additionally
a successful Apple ID step, and the push step additionally a successful
certificate step and app-id registration. -/
def stepReached (env : Env) : CredKind → Bool
  | CredKind.appleId => jsTruthy env.bundleIdentifier
  | CredKind.cert =>
      jsTruthy env.bundleIdentifier &&
        decide ((credStep env CredKind.appleId).2 = Outcome.ok ())
  | CredKind.push =>
      jsTruthy env.bundleIdentifier &&
        decide ((credStep env CredKind.appleId).2 = Outcome.ok ()) &&
        decide ((credStep env CredKind.cert).2 = Outcome.ok ()) &&
        decide (env.ensureAppId = Except.ok ())

/-- Per kind, the whole workflow dispatches the kind's flow exactly once
when the kind's step is reached (collection or re-validate according to
the presence flag) and never otherwise. -/
theorem collect_flow_count (env : Env) (k : CredKind) :
    (collectAndValidateCredentials env).1.count (Event.collectFlow k)
      = (if stepReached env k && !(hasKind env k) then 1 else 0)
    ∧ (collectAndValidateCredentials env).1.count (Event.revalidateFlow k)
      = (if stepReached env k && hasKind env k then 1 else 0) := by
  obtain ⟨hscA, hsrA⟩ := credStep_flow_count env CredKind.appleId
  obtain ⟨hscC, hsrC⟩ := credStep_flow_count env CredKind.cert
  obtain ⟨hscP, hsrP⟩ := credStep_flow_count env CredKind.push
  by_cases hb : jsTruthy env.bundleIdentifier = true
  · cases hao : (credStep env CredKind.appleId).2 with
    | ok u =>
      cases u
      cases hco : (credStep env CredKind.cert).2 with
      | ok u2 =>
        cases u2
        cases hen : env.ensureAppId with
        | ok u3 =>
          cases u3
          cases k with
          | appleId =>
            obtain ⟨hoC1, hoC2⟩ :=
              credStep_flow_count_other env CredKind.cert CredKind.appleId (by simp)
            obtain ⟨hoP1, hoP2⟩ :=
              credStep_flow_count_other env CredKind.push CredKind.appleId (by simp)
            constructor <;>
              rcases Bool.eq_false_or_eq_true (hasKind env CredKind.appleId) with hh | hh <;>
                simp [collectAndValidateCredentials, stepReached, hb, hao, hco, hen,
                  hscA, hsrA, hoC1, hoC2, hoP1, hoP2, hh]
          | cert =>
            obtain ⟨hoA1, hoA2⟩ :=
              credStep_flow_count_other env CredKind.appleId CredKind.cert (by simp)
            obtain ⟨hoP1, hoP2⟩ :=
              credStep_flow_count_other env CredKind.push CredKind.cert (by simp)
            constructor <;>
              rcases Bool.eq_false_or_eq_true (hasKind env CredKind.cert) with hh | hh <;>
                simp [collectAndValidateCredentials, stepReached, hb, hao, hco, hen,
                  hscC, hsrC, hoA1, hoA2, hoP1, hoP2, hh]
          | push =>
            obtain ⟨hoA1, hoA2⟩ :=
              credStep_flow_count_other env CredKind.appleId CredKind.push (by simp)
            obtain ⟨hoC1, hoC2⟩ :=
              credStep_flow_count_other env CredKind.cert CredKind.push (by simp)
            constructor <;>
              rcases Bool.eq_false_or_eq_true (hasKind env CredKind.push) with hh | hh <;>
                simp [collectAndValidateCredentials, stepReached, hb, hao, hco, hen,
                  hscP, hsrP, hoA1, hoA2, hoC1, hoC2, hh]
        | error e3 =>
          cases k with
          | appleId =>
            obtain ⟨hoC1, hoC2⟩ :=
              credStep_flow_count_other env CredKind.cert CredKind.appleId (by simp)
            constructor <;>
              rcases Bool.eq_false_or_eq_true (hasKind env CredKind.appleId) with hh | hh <;>
                simp [collectAndValidateCredentials, stepReached, hb, hao, hco, hen,
                  hscA, hsrA, hoC1, hoC2, hh]
          | cert =>
            obtain ⟨hoA1, hoA2⟩ :=
              credStep_flow_count_other env CredKind.appleId CredKind.cert (by simp)
            constructor <;>
              rcases Bool.eq_false_or_eq_true (hasKind env CredKind.cert) with hh | hh <;>
                simp [collectAndValidateCredentials, stepReached, hb, hao, hco, hen,
                  hscC, hsrC, hoA1, hoA2, hh]
          | push =>
            obtain ⟨hoA1, hoA2⟩ :=
              credStep_flow_count_other env CredKind.appleId CredKind.push (by simp)
            obtain ⟨hoC1, hoC2⟩ :=
              credStep_flow_count_other env CredKind.cert CredKind.push (by simp)
            constructor <;>
              simp [collectAndValidateCredentials, stepReached, hb, hao, hco, hen,
                hoA1, hoA2, hoC1, hoC2]
      | err e2 =>
        cases k with
        | appleId =>
          obtain ⟨hoC1, hoC2⟩ :=
            credStep_flow_count_other env CredKind.cert CredKind.appleId (by simp)
          constructor <;>
            rcases Bool.eq_false_or_eq_true (hasKind env CredKind.appleId) with hh | hh <;>
              simp [collectAndValidateCredentials, stepReached, hb, hao, hco,
                hscA, hsrA, hoC1, hoC2, hh]
        | cert =>
          obtain ⟨hoA1, hoA2⟩ :=
            credStep_flow_count_other env CredKind.appleId CredKind.cert (by simp)
          constructor <;>
            rcases Bool.eq_false_or_eq_true (hasKind env CredKind.cert) with hh | hh <;>
              simp [collectAndValidateCredentials, stepReached, hb, hao, hco,
                hscC, hsrC, hoA1, hoA2, hh]
        | push =>
          obtain ⟨hoA1, hoA2⟩ :=
            credStep_flow_count_other env CredKind.appleId CredKind.push (by simp)
          obtain ⟨hoC1, hoC2⟩ :=
            credStep_flow_count_other env CredKind.cert CredKind.push (by simp)
          constructor <;>
            simp [collectAndValidateCredentials, stepReached, hb, hao, hco,
              hoA1, hoA2, hoC1, hoC2]
      | blocked =>
        cases k with
        | appleId =>
          obtain ⟨hoC1, hoC2⟩ :=
            credStep_flow_count_other env CredKind.cert CredKind.appleId (by simp)
          constructor <;>
            rcases Bool.eq_false_or_eq_true (hasKind env CredKind.appleId) with hh | hh <;>
              simp [collectAndValidateCredentials, stepReached, hb, hao, hco,
                hscA, hsrA, hoC1, hoC2, hh]
        | cert =>
          obtain ⟨hoA1, hoA2⟩ :=
            credStep_flow_count_other env CredKind.appleId CredKind.cert (by simp)
          constructor <;>
            rcases Bool.eq_false_or_eq_true (hasKind env CredKind.cert) with hh | hh <;>
              simp [collectAndValidateCredentials, stepReached, hb, hao, hco,
                hscC, hsrC, hoA1, hoA2, hh]
        | push =>
          obtain ⟨hoA1, hoA2⟩ :=
            credStep_flow_count_other env CredKind.appleId CredKind.push (by simp)
          obtain ⟨hoC1, hoC2⟩ :=
            credStep_flow_count_other env CredKind.cert CredKind.push (by simp)
          constructor <;>
            simp [collectAndValidateCredentials, stepReached, hb, hao, hco,
              hoA1, hoA2, hoC1, hoC2]
    | err e =>
      cases k with
      | appleId =>
        constructor <;>
          rcases Bool.eq_false_or_eq_true (hasKind env CredKind.appleId) with hh | hh <;>
            simp [collectAndValidateCredentials, stepReached, hb, hao, hscA, hsrA, hh]
      | cert =>
        obtain ⟨hoA1, hoA2⟩ :=
          credStep_flow_count_other env CredKind.appleId CredKind.cert (by simp)
        constructor <;>
          simp [collectAndValidateCredentials, stepReached, hb, hao, hoA1, hoA2]
      | push =>
        obtain ⟨hoA1, hoA2⟩ :=
          credStep_flow_count_other env CredKind.appleId CredKind.push (by simp)
        constructor <;>
          simp [collectAndValidateCredentials, stepReached, hb, hao, hoA1, hoA2]
    | blocked =>
      cases k with
      | appleId =>
        constructor <;>
          rcases Bool.eq_false_or_eq_true (hasKind env CredKind.appleId) with hh | hh <;>
            simp [collectAndValidateCredentials, stepReached, hb, hao, hscA, hsrA, hh]
      | cert =>
        obtain ⟨hoA1, hoA2⟩ :=
          credStep_flow_count_other env CredKind.appleId CredKind.cert (by simp)
        constructor <;>
          simp [collectAndValidateCredentials, stepReached, hb, hao, hoA1, hoA2]
      | push =>
        obtain ⟨hoA1, hoA2⟩ :=
          credStep_flow_count_other env CredKind.appleId CredKind.push (by simp)
        constructor <;>
          simp [collectAndValidateCredentials, stepReached, hb, hao, hoA1, hoA2]
  · have hb2 : jsTruthy env.bundleIdentifier = false := by simpa using hb
    cases k with
    | appleId =>
      constructor <;> simp [collectAndValidateCredentials, stepReached, hb2]
    | cert =>
      constructor <;> simp [collectAndValidateCredentials, stepReached, hb2]
    | push =>
      constructor <;> simp [collectAndValidateCredentials, stepReached, hb2]

/-- A successful credential workflow reached every kind's step. -/
theorem collect_ok_reached (env : Env) (k : CredKind)
    (hok : (collectAndValidateCredentials env).2 = Outcome.ok ()) :
    stepReached env k = true := by
  by_cases hb : jsTruthy env.bundleIdentifier = true
  · cases hao : (credStep env CredKind.appleId).2 with
    | ok u =>
      cases u
      cases hco : (credStep env CredKind.cert).2 with
      | ok u2 =>
        cases u2
        cases hen : env.ensureAppId with
        | ok u3 =>
          cases u3
          cases k <;> simp [stepReached, hb, hao, hco, hen]
        | error e3 =>
          simp [collectAndValidateCredentials, hb, hao, hco, hen] at hok
      | err e2 => simp [collectAndValidateCredentials, hb, hao, hco] at hok
      | blocked => simp [collectAndValidateCredentials, hb, hao, hco] at hok
    | err e => simp [collectAndValidateCredentials, hb, hao] at hok
    | blocked => simp [collectAndValidateCredentials, hb, hao] at hok
  · have hb2 : jsTruthy env.bundleIdentifier = false := by simpa using hb
    simp [collectAndValidateCredentials, hb2] at hok

/-! ### C1 -/

/-- C1 (amended): per credential kind, the workflow never runs both the
collection flow and the re-validate flow in one run, and runs at most
one of them; a collection flow only runs when the kind's presence flag
is false and a re-validate flow only when it is true; in a run that
completes successfully, exactly one of the two runs for every kind; and
the presence flag is false exactly when the clear flag is set, the
fetched bundle is absent, or the kind's designated field is falsy. -/
theorem c1_flow_selection (env : Env) (k : CredKind) :
    ((collectAndValidateCredentials env).1.count (Event.collectFlow k)
        + (collectAndValidateCredentials env).1.count (Event.revalidateFlow k) ≤ 1)
    ∧ ((collectAndValidateCredentials env).1.count (Event.collectFlow k) = 1 →
        hasKind env k = false)
    ∧ ((collectAndValidateCredentials env).1.count (Event.revalidateFlow k) = 1 →
        hasKind env k = true)
    ∧ ((collectAndValidateCredentials env).2 = Outcome.ok () →
        (collectAndValidateCredentials env).1.count (Event.collectFlow k)
          + (collectAndValidateCredentials env).1.count (Event.revalidateFlow k) = 1)
    ∧ (hasKind env k = false ↔
        (env.clearCredentials = true ∨ env.existingCredentials = none ∨
          ∃ c, env.existingCredentials = some c ∧ jsTruthy (kindField k c) = false)) := by
  obtain ⟨hc, hr⟩ := collect_flow_count env k
  refine ⟨?_, ?_, ?_, ?_, ?_⟩
  · rw [hc, hr]
    rcases Bool.eq_false_or_eq_true (stepReached env k) with hs | hs <;>
      rcases Bool.eq_false_or_eq_true (hasKind env k) with hh | hh <;>
        simp [hs, hh]
  · rw [hc]
    intro h1
    rcases Bool.eq_false_or_eq_true (hasKind env k) with hh | hh
    · simp [hh] at h1
    · exact hh
  · rw [hr]
    intro h1
    rcases Bool.eq_false_or_eq_true (hasKind env k) with hh | hh
    · exact hh
    · simp [hh] at h1
  · intro hok
    have hreach := collect_ok_reached env k hok
    rw [hc, hr, hreach]
    rcases Bool.eq_false_or_eq_true (hasKind env k) with hh | hh <;> simp [hh]
  · unfold hasKind
    cases hec : env.existingCredentials with
    | none => by_cases hcl : env.clearCredentials = true <;> simp [hcl]
    | some c => by_cases hcl : env.clearCredentials = true <;> simp [hcl]

/-- Environment refuting C1 as stated: no stored bundle (so the claim
demands the certificate collection flow run), but the Apple ID
collection flow fails, so no certificate flow of either kind runs. -/
def envC1x : Env :=
  { envBase with
    validate := fun k d =>
      match k, d with
      | CredKind.appleId, some _ => Except.error eSvc
      | _, _ => Except.ok true }

/-- Counterexample for C1 as stated: with the bundle absent and the
clear flag unset, the run dispatches neither the collection flow nor
the re-validate flow for the certificate kind (the Apple ID step
aborted the run first), so it is not true that exactly one of the two
flows runs per kind in every run. -/
theorem c1_counterexample :
    envC1x.existingCredentials = none
    ∧ envC1x.clearCredentials = false
    ∧ (collectAndValidateCredentials envC1x).1.count
        (Event.collectFlow CredKind.cert) = 0
    ∧ (collectAndValidateCredentials envC1x).1.count
        (Event.revalidateFlow CredKind.cert) = 0 :=
  ⟨rfl, rfl, by decide, by decide⟩

/-- Witness for C1 (amended) at concrete environments: a successful run
dispatches exactly one certificate flow, and the presence-flag
characterization holds. -/
theorem c1_flow_selection_witness :
    ((collectAndValidateCredentials envBase).1.count
        (Event.collectFlow CredKind.cert)
      + (collectAndValidateCredentials envBase).1.count
        (Event.revalidateFlow CredKind.cert) = 1)
    ∧ (envBase.clearCredentials = true ∨ envBase.existingCredentials = none ∨
        ∃ c, envBase.existingCredentials = some c ∧
          jsTruthy (kindField CredKind.push c) = false) :=
  ⟨(c1_flow_selection envBase CredKind.cert).2.2.2.1 (by decide),
    (c1_flow_selection envBase CredKind.push).2.2.2.2.mp (by decide)⟩

/-! ### C6 -/

/-- The Apple ID collection flow never registers the app id. -/
theorem askForAppleId_no_ensure (env : Env) :
    Event.ensureAppIdCall ∉ (askForAppleId env).1 := by
  intro h
  by_cases h1 : env.appleIdAnswer == ""
  · simp [askForAppleId, h1] at h
  · have h1f : (env.appleIdAnswer == "") = false := by simpa using h1
    by_cases h2 : env.passwordAnswer == ""
    · simp [askForAppleId, h1f, h2] at h
    · have h2f : (env.passwordAnswer == "") = false := by simpa using h2
      by_cases h3 : env.teamIdAnswer == ""
      · simp [askForAppleId, h1f, h2f, h3] at h
      · have h3f : (env.teamIdAnswer == "") = false := by simpa using h3
        cases hv : env.validate CredKind.appleId (some (appleCredsOf env)) with
        | error e => simp [askForAppleId, h1f, h2f, h3f, hv] at h
        | ok b =>
          cases hu : env.update (appleCredsOf env) with
          | error e => simp [askForAppleId, h1f, h2f, h3f, hv, hu] at h
          | ok u => simp [askForAppleId, h1f, h2f, h3f, hv, hu] at h

/-- The certificate collection flow never registers the app id. -/
theorem askForCerts_no_ensure (env : Env) :
    Event.ensureAppIdCall ∉ (askForCerts env).1 := by
  intro h
  by_cases hm : env.manageCertificates = true
  · cases hfc : env.fetchAppleCertificates with
    | ok u => simp [askForCerts, hm, hfc] at h
    | error e => simp [askForCerts, hm, hfc] at h
  · have hm2 : env.manageCertificates = false := by simpa using hm
    rcases hl : promptPathLoop env env.certPathInputs with ⟨tr0, out⟩
    have hloopmem := promptPathLoop_fst_mem env env.certPathInputs tr0 out hl
    cases out with
    | ok p0 =>
      cases hrf : env.readFileF p0 with
      | error e1 =>
        simp [askForCerts, hm2, hl, hrf] at h
        exact absurd (hloopmem _ h) (by simp)
      | ok d =>
        cases hv : env.validate CredKind.cert (some (certCredsOf env d)) with
        | error e2 =>
          simp [askForCerts, hm2, hl, hrf, hv] at h
          exact absurd (hloopmem _ h) (by simp)
        | ok b =>
          cases hu : env.update (certCredsOf env d) with
          | error e3 =>
            simp [askForCerts, hm2, hl, hrf, hv, hu] at h
            exact absurd (hloopmem _ h) (by simp)
          | ok u =>
            simp [askForCerts, hm2, hl, hrf, hv, hu] at h
            exact absurd (hloopmem _ h) (by simp)
    | err e =>
      simp [askForCerts, hm2, hl] at h
      exact absurd (hloopmem _ h) (by simp)
    | blocked =>
      simp [askForCerts, hm2, hl] at h
      exact absurd (hloopmem _ h) (by simp)

/-- The push collection flow never registers the app id. -/
theorem askForPushCerts_no_ensure (env : Env) :
    Event.ensureAppIdCall ∉ (askForPushCerts env).1 := by
  intro h
  by_cases hm : env.managePushCertificates = true
  · cases hfc : env.fetchPushCertificates with
    | ok v => simp [askForPushCerts, hm, hfc] at h
    | error e => simp [askForPushCerts, hm, hfc] at h
  · have hm2 : env.managePushCertificates = false := by simpa using hm
    rcases hl : promptPathLoop env env.pushPathInputs with ⟨tr0, out⟩
    have hloopmem := promptPathLoop_fst_mem env env.pushPathInputs tr0 out hl
    cases out with
    | ok p0 =>
      cases hrf : env.readFileF p0 with
      | error e1 =>
        simp [askForPushCerts, hm2, hl, hrf] at h
        exact absurd (hloopmem _ h) (by simp)
      | ok d =>
        cases hv : env.validate CredKind.push (some (pushCredsOf env d)) with
        | error e2 =>
          simp [askForPushCerts, hm2, hl, hrf, hv] at h
          exact absurd (hloopmem _ h) (by simp)
        | ok v =>
          cases hu : env.update (pushCredsOf env d) with
          | error e3 =>
            simp [askForPushCerts, hm2, hl, hrf, hv, hu] at h
            exact absurd (hloopmem _ h) (by simp)
          | ok u =>
            simp [askForPushCerts, hm2, hl, hrf, hv, hu] at h
            exact absurd (hloopmem _ h) (by simp)
    | err e =>
      simp [askForPushCerts, hm2, hl] at h
      exact absurd (hloopmem _ h) (by simp)
    | blocked =>
      simp [askForPushCerts, hm2, hl] at h
      exact absurd (hloopmem _ h) (by simp)

/-- A per-kind step never registers the app id. -/
theorem credStep_no_ensure (env : Env) (k : CredKind) :
    Event.ensureAppIdCall ∉ (credStep env k).1 := by
  by_cases hh : hasKind env k = true
  · intro h
    cases hv : env.validate k none with
    | ok b => simp [credStep, hh, revalidateStep, hv] at h
    | error e => simp [credStep, hh, revalidateStep, hv] at h
  · have hh2 : hasKind env k = false := by simpa using hh
    cases k with
    | appleId => simpa [credStep, hh2] using askForAppleId_no_ensure env
    | cert => simpa [credStep, hh2] using askForCerts_no_ensure env
    | push => simpa [credStep, hh2] using askForPushCerts_no_ensure env

/-- C6 (amended): app-id registration happens at most once per run; it
happens exactly once in every successful run; whenever the Apple ID and
certificate steps complete, the trace splits as the two completed steps,
then the single registration call, then (only if registration succeeded)
the push step; and a registration failure makes the whole workflow fail
with the change-your-bundle-identifier error. -/
theorem c6_app_id_registration (env : Env) :
    ((collectAndValidateCredentials env).1.count Event.ensureAppIdCall ≤ 1)
    ∧ ((collectAndValidateCredentials env).2 = Outcome.ok () →
        (collectAndValidateCredentials env).1.count Event.ensureAppIdCall = 1)
    ∧ (jsTruthy env.bundleIdentifier = true →
        (credStep env CredKind.appleId).2 = Outcome.ok () →
        (credStep env CredKind.cert).2 = Outcome.ok () →
        ∃ l2,
          (collectAndValidateCredentials env).1 =
            [Event.getPublishInfoEv, Event.fetchExistingEv]
              ++ (credStep env CredKind.appleId).1
              ++ (credStep env CredKind.cert).1
              ++ [Event.ensureAppIdCall] ++ l2
          ∧ Event.ensureAppIdCall ∉ (credStep env CredKind.appleId).1
          ∧ Event.ensureAppIdCall ∉ (credStep env CredKind.cert).1
          ∧ Event.ensureAppIdCall ∉ l2
          ∧ (l2 = [] ∨ l2 = (credStep env CredKind.push).1))
    ∧ (∀ e, jsTruthy env.bundleIdentifier = true →
        (credStep env CredKind.appleId).2 = Outcome.ok () →
        (credStep env CredKind.cert).2 = Outcome.ok () →
        env.ensureAppId = Except.error e →
        (collectAndValidateCredentials env).2 =
          Outcome.err (appIdErr (env.bundleIdentifier.getD ""))) := by
  have hA0 : (credStep env CredKind.appleId).1.count Event.ensureAppIdCall = 0 :=
    List.count_eq_zero_of_not_mem (credStep_no_ensure env CredKind.appleId)
  have hC0 : (credStep env CredKind.cert).1.count Event.ensureAppIdCall = 0 :=
    List.count_eq_zero_of_not_mem (credStep_no_ensure env CredKind.cert)
  have hP0 : (credStep env CredKind.push).1.count Event.ensureAppIdCall = 0 :=
    List.count_eq_zero_of_not_mem (credStep_no_ensure env CredKind.push)
  refine ⟨?_, ?_, ?_, ?_⟩
  · by_cases hb : jsTruthy env.bundleIdentifier = true
    · cases hao : (credStep env CredKind.appleId).2 with
      | ok u =>
        cases u
        cases hco : (credStep env CredKind.cert).2 with
        | ok u2 =>
          cases u2
          cases hen : env.ensureAppId with
          | ok u3 =>
            cases u3
            simp [collectAndValidateCredentials, hb, hao, hco, hen, hA0, hC0, hP0]
          | error e3 =>
            simp [collectAndValidateCredentials, hb, hao, hco, hen, hA0, hC0]
        | err e2 => simp [collectAndValidateCredentials, hb, hao, hco, hA0, hC0]
        | blocked => simp [collectAndValidateCredentials, hb, hao, hco, hA0, hC0]
      | err e => simp [collectAndValidateCredentials, hb, hao, hA0]
      | blocked => simp [collectAndValidateCredentials, hb, hao, hA0]
    · have hb2 : jsTruthy env.bundleIdentifier = false := by simpa using hb
      simp [collectAndValidateCredentials, hb2]
  · intro hok
    by_cases hb : jsTruthy env.bundleIdentifier = true
    · cases hao : (credStep env CredKind.appleId).2 with
      | ok u =>
        cases u
        cases hco : (credStep env CredKind.cert).2 with
        | ok u2 =>
          cases u2
          cases hen : env.ensureAppId with
          | ok u3 =>
            cases u3
            simp [collectAndValidateCredentials, hb, hao, hco, hen, hA0, hC0, hP0]
          | error e3 =>
            simp [collectAndValidateCredentials, hb, hao, hco, hen] at hok
        | err e2 => simp [collectAndValidateCredentials, hb, hao, hco] at hok
        | blocked => simp [collectAndValidateCredentials, hb, hao, hco] at hok
      | err e => simp [collectAndValidateCredentials, hb, hao] at hok
      | blocked => simp [collectAndValidateCredentials, hb, hao] at hok
    · have hb2 : jsTruthy env.bundleIdentifier = false := by simpa using hb
      simp [collectAndValidateCredentials, hb2] at hok
  · intro hbi hao hco
    cases hen : env.ensureAppId with
    | error e3 =>
      refine ⟨[], ?_, credStep_no_ensure env CredKind.appleId,
        credStep_no_ensure env CredKind.cert, by simp, Or.inl rfl⟩
      simp [collectAndValidateCredentials, hbi, hao, hco, hen]
    | ok u3 =>
      cases u3
      refine ⟨(credStep env CredKind.push).1, ?_,
        credStep_no_ensure env CredKind.appleId,
        credStep_no_ensure env CredKind.cert,
        credStep_no_ensure env CredKind.push, Or.inr rfl⟩
      simp [collectAndValidateCredentials, hbi, hao, hco, hen]
  · intro e hbi hao hco hen
    simp [collectAndValidateCredentials, hbi, hao, hco, hen]

/-- Environment refuting C6 as stated: the run aborts before the
registration step, so registration is not invoked at all. -/
def envC6x : Env := { envBase with bundleIdentifier := none }

/-- Counterexample for C6 as stated: a run in which app-id registration
is invoked zero times, refuting invoked-exactly-once-in-every-run. -/
theorem c6_counterexample :
    (collectAndValidateCredentials envC6x).1.count Event.ensureAppIdCall = 0
    ∧ (collectAndValidateCredentials envC6x).2 ≠ Outcome.ok () :=
  ⟨by decide, by decide⟩

/-- Environment exercising the registration-failure clause of C6. -/
def envC6w : Env := { envBase with ensureAppId := Except.error eNet }

/-- Witness for C6 (amended) at concrete environments: a successful run
registers exactly once, and a registration failure surfaces the
change-your-bundle-identifier error. -/
theorem c6_app_id_registration_witness :
    (collectAndValidateCredentials envBase).1.count Event.ensureAppIdCall = 1
    ∧ (collectAndValidateCredentials envC6w).2 =
        Outcome.err (appIdErr (envC6w.bundleIdentifier.getD "")) :=
  ⟨(c6_app_id_registration envBase).2.1 (by decide),
    (c6_app_id_registration envC6w).2.2.2 eNet (by decide) (by decide)
      (by decide) rfl⟩

/-! ### C9 -/

/-- Whether an event belongs to the credential-collection phase (it is
not a packager check, publish or build event). -/
def Event.isCredEv : Event → Bool
  | Event.getPublishInfoEv => true
  | Event.fetchExistingEv => true
  | Event.promptShown _ => true
  | Event.validateCall _ _ => true
  | Event.updateCall _ => true
  | Event.fetchAppleCertsCall => true
  | Event.fetchPushCertsCall => true
  | Event.ensureAppIdCall => true
  | Event.readFileCall _ => true
  | Event.collectFlow _ => true
  | Event.revalidateFlow _ => true
  | Event.publishCall => false
  | Event.buildCall _ => false
  | Event.checkPackagerCall => false
  | Event.checkStatusCall => false

/-- All events of the Apple ID flow are credential events. -/
theorem askForAppleId_credEv (env : Env) :
    ∀ e ∈ (askForAppleId env).1, Event.isCredEv e = true := by
  by_cases h1 : env.appleIdAnswer == ""
  · simp [askForAppleId, h1, Event.isCredEv]
  · have h1f : (env.appleIdAnswer == "") = false := by simpa using h1
    by_cases h2 : env.passwordAnswer == ""
    · simp [askForAppleId, h1f, h2, Event.isCredEv]
    · have h2f : (env.passwordAnswer == "") = false := by simpa using h2
      by_cases h3 : env.teamIdAnswer == ""
      · simp [askForAppleId, h1f, h2f, h3, Event.isCredEv]
      · have h3f : (env.teamIdAnswer == "") = false := by simpa using h3
        cases hv : env.validate CredKind.appleId (some (appleCredsOf env)) with
        | error e => simp [askForAppleId, h1f, h2f, h3f, hv, Event.isCredEv]
        | ok b =>
          cases hu : env.update (appleCredsOf env) with
          | error e => simp [askForAppleId, h1f, h2f, h3f, hv, hu, Event.isCredEv]
          | ok u => simp [askForAppleId, h1f, h2f, h3f, hv, hu, Event.isCredEv]

/-- All events of the certificate flow are credential events. -/
theorem askForCerts_credEv (env : Env) :
    ∀ e ∈ (askForCerts env).1, Event.isCredEv e = true := by
  have key : ((askForCerts env).1.all Event.isCredEv) = true := by
    by_cases hm : env.manageCertificates = true
    · cases hfc : env.fetchAppleCertificates with
      | ok u => simp [askForCerts, hm, hfc, Event.isCredEv]
      | error e => simp [askForCerts, hm, hfc, Event.isCredEv]
    · have hm2 : env.manageCertificates = false := by simpa using hm
      rcases hl : promptPathLoop env env.certPathInputs with ⟨tr0, out⟩
      have hloopmem := promptPathLoop_fst_mem env env.certPathInputs tr0 out hl
      have htr0 : (tr0.all Event.isCredEv) = true :=
        List.all_eq_true.mpr (fun e he => by rw [hloopmem e he]; rfl)
      cases out with
      | ok p0 =>
        cases hrf : env.readFileF p0 with
        | error e1 =>
          simp [askForCerts, hm2, hl, hrf, Event.isCredEv, htr0]
        | ok d =>
          cases hv : env.validate CredKind.cert (some (certCredsOf env d)) with
          | error e2 =>
            simp [askForCerts, hm2, hl, hrf, hv, Event.isCredEv, htr0]
          | ok b =>
            cases hu : env.update (certCredsOf env d) with
            | error e3 =>
              simp [askForCerts, hm2, hl, hrf, hv, hu, Event.isCredEv, htr0]
            | ok u =>
              simp [askForCerts, hm2, hl, hrf, hv, hu, Event.isCredEv, htr0]
      | err e => simp [askForCerts, hm2, hl, Event.isCredEv, htr0]
      | blocked => simp [askForCerts, hm2, hl, Event.isCredEv, htr0]
  exact fun e he => List.all_eq_true.mp key e he

/-- All events of the push flow are credential events. -/
theorem askForPushCerts_credEv (env : Env) :
    ∀ e ∈ (askForPushCerts env).1, Event.isCredEv e = true := by
  have key : ((askForPushCerts env).1.all Event.isCredEv) = true := by
    by_cases hm : env.managePushCertificates = true
    · cases hfc : env.fetchPushCertificates with
      | ok v => simp [askForPushCerts, hm, hfc, Event.isCredEv]
      | error e => simp [askForPushCerts, hm, hfc, Event.isCredEv]
    · have hm2 : env.managePushCertificates = false := by simpa using hm
      rcases hl : promptPathLoop env env.pushPathInputs with ⟨tr0, out⟩
      have hloopmem := promptPathLoop_fst_mem env env.pushPathInputs tr0 out hl
      have htr0 : (tr0.all Event.isCredEv) = true :=
        List.all_eq_true.mpr (fun e he => by rw [hloopmem e he]; rfl)
      cases out with
      | ok p0 =>
        cases hrf : env.readFileF p0 with
        | error e1 =>
          simp [askForPushCerts, hm2, hl, hrf, Event.isCredEv, htr0]
        | ok d =>
          cases hv : env.validate CredKind.push (some (pushCredsOf env d)) with
          | error e2 =>
            simp [askForPushCerts, hm2, hl, hrf, hv, Event.isCredEv, htr0]
          | ok v =>
            cases hu : env.update (pushCredsOf env d) with
            | error e3 =>
              simp [askForPushCerts, hm2, hl, hrf, hv, hu, Event.isCredEv, htr0]
            | ok u =>
              simp [askForPushCerts, hm2, hl, hrf, hv, hu, Event.isCredEv, htr0]
      | err e => simp [askForPushCerts, hm2, hl, Event.isCredEv, htr0]
      | blocked => simp [askForPushCerts, hm2, hl, Event.isCredEv, htr0]
  exact fun e he => List.all_eq_true.mp key e he

/-- All events of a per-kind step are credential events. -/
theorem credStep_credEv (env : Env) (k : CredKind) :
    ∀ e ∈ (credStep env k).1, Event.isCredEv e = true := by
  by_cases hh : hasKind env k = true
  · cases hv : env.validate k none with
    | ok b => simp [credStep, hh, revalidateStep, hv, Event.isCredEv]
    | error e => simp [credStep, hh, revalidateStep, hv, Event.isCredEv]
  · have hh2 : hasKind env k = false := by simpa using hh
    cases k with
    | appleId => simpa [credStep, hh2] using askForAppleId_credEv env
    | cert => simpa [credStep, hh2] using askForCerts_credEv env
    | push => simpa [credStep, hh2] using askForPushCerts_credEv env

/-- All events of the credential workflow are credential events; in
particular it neither publishes nor submits a build. -/
theorem collect_credEv (env : Env) :
    ∀ e ∈ (collectAndValidateCredentials env).1, Event.isCredEv e = true := by
  have hA := credStep_credEv env CredKind.appleId
  have hC := credStep_credEv env CredKind.cert
  have hP := credStep_credEv env CredKind.push
  have hg1 : Event.isCredEv Event.getPublishInfoEv = true := rfl
  have hg2 : Event.isCredEv Event.fetchExistingEv = true := rfl
  have hg3 : Event.isCredEv Event.ensureAppIdCall = true := rfl
  by_cases hb : jsTruthy env.bundleIdentifier = true
  · cases hao : (credStep env CredKind.appleId).2 with
    | ok u =>
      cases u
      cases hco : (credStep env CredKind.cert).2 with
      | ok u2 =>
        cases u2
        cases hen : env.ensureAppId with
        | ok u3 =>
          cases u3
          intro a ha
          simp [collectAndValidateCredentials, hb, hao, hco, hen] at ha
          rcases ha with (rfl | rfl | ha | ha | rfl | ha)
          · rfl
          · rfl
          · exact hA a ha
          · exact hC a ha
          · rfl
          · exact hP a ha
        | error e3 =>
          intro a ha
          simp [collectAndValidateCredentials, hb, hao, hco, hen] at ha
          rcases ha with (rfl | rfl | ha | ha | rfl)
          · rfl
          · rfl
          · exact hA a ha
          · exact hC a ha
          · rfl
      | err e2 =>
        intro a ha
        simp [collectAndValidateCredentials, hb, hao, hco] at ha
        rcases ha with (rfl | rfl | ha | ha)
        · rfl
        · rfl
        · exact hA a ha
        · exact hC a ha
      | blocked =>
        intro a ha
        simp [collectAndValidateCredentials, hb, hao, hco] at ha
        rcases ha with (rfl | rfl | ha | ha)
        · rfl
        · rfl
        · exact hA a ha
        · exact hC a ha
    | err e =>
      intro a ha
      simp [collectAndValidateCredentials, hb, hao] at ha
      rcases ha with (rfl | rfl | ha)
      · rfl
      · rfl
      · exact hA a ha
    | blocked =>
      intro a ha
      simp [collectAndValidateCredentials, hb, hao] at ha
      rcases ha with (rfl | rfl | ha)
      · rfl
      · rfl
      · exact hA a ha
  · have hb2 : jsTruthy env.bundleIdentifier = false := by simpa using hb
    simp [collectAndValidateCredentials, hb2, hg1]

/-- The credential workflow performs no publish call. -/
theorem collect_no_publish (env : Env) :
    Event.publishCall ∉ (collectAndValidateCredentials env).1 := fun h => by
  have := collect_credEv env _ h
  simp [Event.isCredEv] at this

/-- The credential workflow performs no build submission. -/
theorem collect_no_build (env : Env) (ids : List String) :
    Event.buildCall ids ∉ (collectAndValidateCredentials env).1 := fun h => by
  have := collect_credEv env _ h
  simp [Event.isCredEv] at this

/-- C9: in every run, publish and build are single attempts (at most
one call each); a build submission only ever happens with exactly the
experience ids that the publish call returned, immediately after the
publish call and never before it; a publish failure aborts the run with
that error and prevents any build call; and a build failure aborts the
run with that error. -/
theorem c9_publish_before_build (env : Env) :
    ((run env).1.count Event.publishCall ≤ 1)
    ∧ (∀ ids, (run env).1.count (Event.buildCall ids) ≤ 1)
    ∧ (∀ ids, Event.buildCall ids ∈ (run env).1 →
        env.publishResult = Except.ok ids ∧
        ∃ l1 l2,
          (run env).1 = l1 ++ [Event.publishCall, Event.buildCall ids] ++ l2
          ∧ Event.publishCall ∉ l1 ∧ (∀ ids2, Event.buildCall ids2 ∉ l1))
    ∧ (∀ e, env.publishResult = Except.error e →
        (∀ ids, Event.buildCall ids ∉ (run env).1)
        ∧ (Event.publishCall ∈ (run env).1 → (run env).2 = Outcome.err e))
    ∧ (∀ ids e, env.publishResult = Except.ok ids →
        env.buildResult ids = Except.error e →
        Event.buildCall ids ∈ (run env).1 → (run env).2 = Outcome.err e) := by
  have nm1 := collect_no_publish env
  have nm2 := collect_no_build env
  have nm1c : (collectAndValidateCredentials env).1.count Event.publishCall = 0 :=
    List.count_eq_zero_of_not_mem nm1
  have nm2c : ∀ ids,
      (collectAndValidateCredentials env).1.count (Event.buildCall ids) = 0 :=
    fun ids => List.count_eq_zero_of_not_mem (nm2 ids)
  refine ⟨?_, ?_, ?_, ?_, ?_⟩
  · cases hk1 : env.checkPackagerStatus with
    | error e1 => simp [run, hk1]
    | ok u1 =>
      cases u1
      cases hk2 : env.checkStatus with
      | error e2 => simp [run, hk1, hk2]
      | ok u2 =>
        cases u2
        cases hcol : (collectAndValidateCredentials env).2 with
        | ok u =>
          cases u
          cases hpub : env.publishResult with
          | error e => simp [run, hk1, hk2, hcol, hpub, nm1c]
          | ok ids0 =>
            cases hbld : env.buildResult ids0 with
            | error e => simp [run, hk1, hk2, hcol, hpub, hbld, nm1c]
            | ok u3 => cases u3; simp [run, hk1, hk2, hcol, hpub, hbld, nm1c]
        | err e => simp [run, hk1, hk2, hcol, nm1c]
        | blocked => simp [run, hk1, hk2, hcol, nm1c]
  · intro ids
    cases hk1 : env.checkPackagerStatus with
    | error e1 => simp [run, hk1]
    | ok u1 =>
      cases u1
      cases hk2 : env.checkStatus with
      | error e2 => simp [run, hk1, hk2]
      | ok u2 =>
        cases u2
        cases hcol : (collectAndValidateCredentials env).2 with
        | ok u =>
          cases u
          cases hpub : env.publishResult with
          | error e => simp [run, hk1, hk2, hcol, hpub, nm2c]
          | ok ids0 =>
            cases hbld : env.buildResult ids0 with
            | error e =>
              by_cases hids : ids = ids0 <;>
                simp [run, hk1, hk2, hcol, hpub, hbld, nm2c, hids]
            | ok u3 =>
              cases u3
              by_cases hids : ids = ids0 <;>
                simp [run, hk1, hk2, hcol, hpub, hbld, nm2c, hids]
        | err e => simp [run, hk1, hk2, hcol, nm2c]
        | blocked => simp [run, hk1, hk2, hcol, nm2c]
  · intro ids hmem
    cases hk1 : env.checkPackagerStatus with
    | error e1 => simp [run, hk1] at hmem
    | ok u1 =>
      cases u1
      cases hk2 : env.checkStatus with
      | error e2 => simp [run, hk1, hk2] at hmem
      | ok u2 =>
        cases u2
        cases hcol : (collectAndValidateCredentials env).2 with
        | ok u =>
          cases u
          cases hpub : env.publishResult with
          | error e => simp [run, hk1, hk2, hcol, hpub, nm2 ids] at hmem
          | ok ids0 =>
            cases hbld : env.buildResult ids0 with
            | error e =>
              simp [run, hk1, hk2, hcol, hpub, hbld, nm2 ids] at hmem
              subst hmem
              refine ⟨rfl,
                [Event.checkPackagerCall, Event.checkStatusCall]
                  ++ (collectAndValidateCredentials env).1, [], ?_, ?_, ?_⟩
              · simp [run, hk1, hk2, hcol, hpub, hbld]
              · simp [nm1]
              · intro ids2; simp [nm2 ids2]
            | ok u3 =>
              cases u3
              simp [run, hk1, hk2, hcol, hpub, hbld, nm2 ids] at hmem
              subst hmem
              refine ⟨rfl,
                [Event.checkPackagerCall, Event.checkStatusCall]
                  ++ (collectAndValidateCredentials env).1, [], ?_, ?_, ?_⟩
              · simp [run, hk1, hk2, hcol, hpub, hbld]
              · simp [nm1]
              · intro ids2; simp [nm2 ids2]
        | err e => simp [run, hk1, hk2, hcol, nm2 ids] at hmem
        | blocked => simp [run, hk1, hk2, hcol, nm2 ids] at hmem
  · intro e hpubE
    cases hk1 : env.checkPackagerStatus with
    | error e1 => constructor <;> simp [run, hk1]
    | ok u1 =>
      cases u1
      cases hk2 : env.checkStatus with
      | error e2 => constructor <;> simp [run, hk1, hk2]
      | ok u2 =>
        cases u2
        cases hcol : (collectAndValidateCredentials env).2 with
        | ok u =>
          cases u
          constructor
          · intro ids
            simp [run, hk1, hk2, hcol, hpubE, nm2 ids]
          · intro hp
            simp [run, hk1, hk2, hcol, hpubE]
        | err e2 =>
          constructor
          · intro ids
            simp [run, hk1, hk2, hcol, nm2 ids]
          · intro hp
            simp [run, hk1, hk2, hcol, nm1] at hp
        | blocked =>
          constructor
          · intro ids
            simp [run, hk1, hk2, hcol, nm2 ids]
          · intro hp
            simp [run, hk1, hk2, hcol, nm1] at hp
  · intro ids e hok hbldE hmem
    cases hk1 : env.checkPackagerStatus with
    | error e1 => simp [run, hk1] at hmem
    | ok u1 =>
      cases u1
      cases hk2 : env.checkStatus with
      | error e2 => simp [run, hk1, hk2] at hmem
      | ok u2 =>
        cases u2
        cases hcol : (collectAndValidateCredentials env).2 with
        | ok u =>
          cases u
          simp [run, hk1, hk2, hcol, hok, hbldE]
        | err e2 => simp [run, hk1, hk2, hcol, nm2 ids] at hmem
        | blocked => simp [run, hk1, hk2, hcol, nm2 ids] at hmem

/-- Witness for C9 at a concrete environment: the build is called with
exactly the published ids, decomposing the trace around the adjacent
publish and build events. -/
theorem c9_publish_before_build_witness :
    envBase.publishResult = Except.ok [expIdW] ∧
    ∃ l1 l2,
      (run envBase).1 = l1 ++ [Event.publishCall, Event.buildCall [expIdW]] ++ l2
      ∧ Event.publishCall ∉ l1 ∧ (∀ ids2, Event.buildCall ids2 ∉ l1) :=
  (c9_publish_before_build envBase).2.2.1 [expIdW] (by decide)

/-! ### C10 -/

/-- The path-question loop does not depend on the fetched credential
bundle. -/
theorem promptPathLoop_existing_irrel (env : Env) (x y : Option IOSCredentials) :
    promptPathLoop { env with existingCredentials := x }
      = promptPathLoop { env with existingCredentials := y } := by
  funext l
  induction l with
  | nil => rfl
  | cons a t ih =>
    simp only [promptPathLoop, ih]
    rfl

/-- C10: with the clear flag unset and a fetched bundle present, each
kind's presence flag is exactly the truthiness of the bundle's
designated field (`appleId`, `certP12`, `pushP12`); consequently two
bundles whose designated fields agree in truthiness produce identical
runs — the remaining fields (`password`, `teamId`, `certPassword`,
`pushPassword`) have no effect on which flow runs for any kind. -/
theorem c10_presence_by_designated_field (env : Env) (c1 c2 : IOSCredentials)
    (hclear : env.clearCredentials = false)
    (h1 : jsTruthy c1.appleId = jsTruthy c2.appleId)
    (h2 : jsTruthy c1.certP12 = jsTruthy c2.certP12)
    (h3 : jsTruthy c1.pushP12 = jsTruthy c2.pushP12) :
    (∀ k, hasKind { env with existingCredentials := some c1 } k
        = jsTruthy (kindField k c1))
    ∧ collectAndValidateCredentials { env with existingCredentials := some c1 }
      = collectAndValidateCredentials { env with existingCredentials := some c2 } := by
  have hfield : ∀ k, jsTruthy (kindField k c1) = jsTruthy (kindField k c2) := by
    intro k
    cases k with
    | appleId => exact h1
    | cert => exact h2
    | push => exact h3
  have hpres : ∀ k, hasKind { env with existingCredentials := some c1 } k
      = jsTruthy (kindField k c1) := by
    intro k
    simp [hasKind, hclear]
  have hpres2 : ∀ k, hasKind { env with existingCredentials := some c2 } k
      = jsTruthy (kindField k c2) := by
    intro k
    simp [hasKind, hclear]
  have hhk : ∀ k, hasKind { env with existingCredentials := some c1 } k
      = hasKind { env with existingCredentials := some c2 } k := by
    intro k
    rw [hpres k, hpres2 k, hfield k]
  have hloop := promptPathLoop_existing_irrel env (some c1) (some c2)
  have happle : askForAppleId { env with existingCredentials := some c1 }
      = askForAppleId { env with existingCredentials := some c2 } := rfl
  have hreval : ∀ k, revalidateStep { env with existingCredentials := some c1 } k
      = revalidateStep { env with existingCredentials := some c2 } k :=
    fun _ => rfl
  have hcert : askForCerts { env with existingCredentials := some c1 }
      = askForCerts { env with existingCredentials := some c2 } := by
    unfold askForCerts
    rw [hloop]
    rfl
  have hpush : askForPushCerts { env with existingCredentials := some c1 }
      = askForPushCerts { env with existingCredentials := some c2 } := by
    unfold askForPushCerts
    rw [hloop]
    rfl
  have hstep : ∀ k, credStep { env with existingCredentials := some c1 } k
      = credStep { env with existingCredentials := some c2 } k := by
    intro k
    unfold credStep
    rw [hhk k]
    by_cases hk : hasKind { env with existingCredentials := some c2 } k = true
    · simp only [hk, if_true]
      exact hreval k
    · have hk2 : hasKind { env with existingCredentials := some c2 } k = false := by
        simpa using hk
      simp only [hk2]
      cases k with
      | appleId => exact happle
      | cert => exact hcert
      | push => exact hpush
  refine ⟨hpres, ?_⟩
  unfold collectAndValidateCredentials
  rw [hstep CredKind.appleId, hstep CredKind.cert, hstep CredKind.push]

/-- Bundles exercising C10: same designated fields, different other
fields. -/
def credsC10a : IOSCredentials :=
  { appleId := some aW, certP12 := some dataW, password := some pwW }

/-- Second bundle for the C10 witness. -/
def credsC10b : IOSCredentials :=
  { appleId := some tW, certP12 := some dataW, teamId := some tW,
    certPassword := some pwW, pushPassword := some pwW }

/-- Witness for C10 at concrete bundles differing in every
non-designated field. -/
theorem c10_presence_by_designated_field_witness :
    hasKind { envBase with existingCredentials := some credsC10a }
      CredKind.cert = jsTruthy (kindField CredKind.cert credsC10a)
    ∧ collectAndValidateCredentials
        { envBase with existingCredentials := some credsC10a }
      = collectAndValidateCredentials
        { envBase with existingCredentials := some credsC10b } :=
  ⟨(c10_presence_by_designated_field envBase credsC10a credsC10b rfl
      (by decide) (by decide) (by decide)).1 CredKind.cert,
    (c10_presence_by_designated_field envBase credsC10a credsC10b rfl
      (by decide) (by decide) (by decide)).2⟩
